import Mathlib

-- Verification of the ingestion pipeline of the youtube-summary repository.
-- The TypeScript sources modelled here are
--   src/backend/src/jobs/fetchVideos.ts       (ingestion orchestrator),
--   src/backend/src/jobs/fetchSingleVideo.ts  (single-video submission),
--   src/backend/src/jobs/youtubeTranscript.ts (extractVideoId),
--   src/backend/init.sql                      (table shapes and defaults).
-- External effects (YouTube data API, OpenRouter, the transcript scraper,
-- crypto.randomUUID, the WHATWG URL parser) enter as explicit oracle values;
-- the PostgreSQL tables are lists of rows, kept in the order that the
-- queries of the source observe them.

namespace YoutubeSummary

/-- JavaScript `parseInt(d, 10)` applied to a string of decimal digits
(the only strings the regex groups of `parseIso8601Duration` can capture). -/
def digitsToNat (ds : List Char) : Nat :=
  ds.foldl (fun a c => a * 10 + (c.toNat - 48)) 0

/-- One optional regex group `(?:(\d+)X)?` at the current position: a nonempty
run of digits immediately followed by the marker letter `X` captures the digits
and consumes them together with the marker; otherwise nothing is consumed and
the group is unmatched.  Greedy `\d+` with a letter marker never needs to
backtrack into the digit run, so taking the maximal run is exact. -/
def matchComponent (cs : List Char) (marker : Char) : Option (List Char) × List Char :=
  let ds := cs.takeWhile (·.isDigit)
  match cs.drop ds.length with
  | c :: rest => if ds ≠ [] ∧ c = marker then (some ds, rest) else (none, cs)
  | [] => (none, cs)

/-- Leftmost match position of the non-anchored JavaScript regex
`/PT(?:(\d+)H)?(?:(\d+)M)?(?:(\d+)S)?/`: since all three groups are optional,
the regex succeeds exactly at the first occurrence of the literal `PT`.
Returns the characters after that first occurrence, `none` when `PT` does not
occur in the string (then `String.match` returns `null`). -/
def findPT : List Char → Option (List Char)
  | 'P' :: 'T' :: rest => some rest
  | _ :: rest => findPT rest
  | [] => none

/-- `parseIso8601Duration` from `fetchVideos.ts` (lines 33-40): match the
duration against `PT(?:(\d+)H)?(?:(\d+)M)?(?:(\d+)S)?`; on no match return 0;
otherwise `parseInt` each group with `"0"` substituted for an unmatched group,
and return `hours * 3600 + minutes * 60 + seconds`. -/
def parseIso8601Duration (duration : String) : Nat :=
  match findPT duration.data with
  | none => 0
  | some afterPT =>
    let (h, r1) := matchComponent afterPT 'H'
    let (m, r2) := matchComponent r1 'M'
    let (s, _) := matchComponent r2 'S'
    let hours := digitsToNat (h.getD ['0'])
    let minutes := digitsToNat (m.getD ['0'])
    let seconds := digitsToNat (s.getD ['0'])
    hours * 3600 + minutes * 60 + seconds

/-- Outcome of the OpenRouter chat-completion HTTP exchange, as a function of
the user message's transcript part.  `success content` stands for a 2xx
response whose body has `choices[0].message.content = content`; `malformed`
for a 2xx response on which that access path throws; `httpError` for
`!response.ok` (the code then throws and catches its own error); `unreachable`
for `fetch` itself rejecting. -/
inductive ChatOutcome where
  | unreachable : ChatOutcome
  | httpError (status : Nat) : ChatOutcome
  | malformed : ChatOutcome
  | success (content : String) : ChatOutcome
deriving DecidableEq

/-- `generateSummaryWithOpenRouter` from `fetchVideos.ts` (lines 159-243).
`apiKey` is `process.env.OPENROUTER_API_KEY`; `outcome` maps the truncated
transcript that is sent upstream to the HTTP outcome.  Every failure path
(missing key, rejected fetch, non-ok status, malformed payload) falls into the
catch block and returns `transcript.substring(0, 300) + "..."`. -/
def generateSummaryWithOpenRouter (apiKey : Option String)
    (outcome : String → ChatOutcome) (transcript _videoTitle : String) : String :=
  match apiKey with
  | none => transcript.take 300 ++ "..."
  | some _ =>
    let maxChars := 8000
    let truncatedTranscript :=
      if transcript.length > maxChars then transcript.take maxChars ++ "..."
      else transcript
    match outcome truncatedTranscript with
    | .unreachable => transcript.take 300 ++ "..."
    | .httpError _ => transcript.take 300 ++ "..."
    | .malformed => transcript.take 300 ++ "..."
    | .success content => content.trim

/-- A timed transcript segment as returned by the transcript scraper. -/
structure TranscriptSegment where
  text : String
  start : Nat
  duration : Nat
deriving DecidableEq

/-- `getTranscriptFromYouTube` from `fetchVideos.ts` (lines 136-154):
`segments = none` models `transcribeVideo` throwing (caught, `null`
returned); an empty segment list also yields `null`; otherwise the segment
texts are joined by single spaces. -/
def getTranscriptFromYouTube (segments : Option (List TranscriptSegment)) : Option String :=
  match segments with
  | none => none
  | some [] => none
  | some segs => some (String.intercalate " " (segs.map (·.text)))

-- ### extractVideoId (youtubeTranscript.ts) and the single-video job surface

/-- Character class `[a-zA-Z0-9_-]` of the video-id regexes. -/
def isIdChar (c : Char) : Bool :=
  c.isAlpha || c.isDigit || c = '_' || c = '-'

/-- The anchored test `/^[a-zA-Z0-9_-]{11}$/.test(input)`. -/
def isPlainVideoId (s : String) : Bool :=
  s.length = 11 && s.data.all isIdChar

/-- Result of the WHATWG `new URL(input)` constructor: the pieces of the
parsed URL that `extractVideoId` reads.  `searchParams` lists decoded
key/value pairs in order. -/
structure URLParts where
  hostname : String
  pathname : String
  searchParams : List (String × String)
deriving DecidableEq

/-- `url.searchParams.get(k)`: value of the first parameter named `k`,
`null` when absent. -/
def getSearchParam (ps : List (String × String)) (k : String) : Option String :=
  (ps.find? (fun p => p.1 = k)).map (·.2)

/-- Leftmost match of the non-anchored `/([a-zA-Z0-9_-]{11})/`: the first
window of eleven consecutive id characters. -/
def findIdRun : List Char → Option String
  | [] => none
  | l@(_ :: rest) =>
    if (l.take 11).length = 11 ∧ (l.take 11).all isIdChar then
      some (String.mk (l.take 11))
    else findIdRun rest

/-- `extractVideoId` from `youtubeTranscript.ts` (lines 20-39).  `parseURL`
is the `new URL` constructor, `none` modelling the `TypeError` it throws on
an unparsable input (caught, `null` returned).  An empty `v` parameter is
falsy in JavaScript, so `if (v) return v` falls through to the path regex;
likewise `return id || null` on the `youtu.be` branch. -/
def extractVideoId (parseURL : String → Option URLParts) (input : String) : Option String :=
  if isPlainVideoId input then some input
  else
    match parseURL input with
    | none => none
    | some url =>
      if decide (List.IsInfix "youtu.be".data url.hostname.data) then
        let id := url.pathname.drop 1
        if id = "" then none else some id
      else
        match getSearchParam url.searchParams "v" with
        | some v => if v = "" then findIdRun url.pathname.data else some v
        | none => findIdRun url.pathname.data

/-- Status field of an in-memory single-video job record. -/
inductive JobStatus where
  | pending : JobStatus
  | done : JobStatus
  | error : JobStatus
deriving DecidableEq

/-- An in-memory job record of `fetchSingleVideo.ts` (the `video` payload of
a completed job is irrelevant to the submission surface and omitted). -/
structure SingleVideoJob where
  status : JobStatus
  errorMsg : Option String
deriving DecidableEq

/-- The in-memory `jobs` map, as an association list keyed by job id. -/
abbrev Jobs := List (String × SingleVideoJob)

/-- `jobs.get(jobId)` wrapped by `getJobStatus` (lines 213-217). -/
def getJobStatus (jobs : Jobs) (jobId : String) : Option SingleVideoJob :=
  (jobs.find? (fun p => p.1 = jobId)).map (·.2)

/-- `jobs.set(jobId, job)`: replace the entry if the key exists, else add it. -/
def setJob (jobs : Jobs) (jobId : String) (job : SingleVideoJob) : Jobs :=
  if (jobs.find? (fun p => p.1 = jobId)).isSome then
    jobs.map (fun p => if p.1 = jobId then (jobId, job) else p)
  else jobs ++ [(jobId, job)]

/-- The synchronous part of `startSingleVideoJob` (lines 187-210): extract the
video id; on failure return an empty job id with the error `"Invalid YouTube
URL"` touching nothing; otherwise create a fresh job record with status
`"pending"` and return its id.  `freshId` is the `randomUUID()` draw; the
background `processSingleVideo` call runs after this function has returned. -/
def startSingleVideoJob (parseURL : String → Option URLParts) (freshId : String)
    (videoUrl : String) (jobs : Jobs) : (String × Option String) × Jobs :=
  match extractVideoId parseURL videoUrl with
  | none => (("", some "Invalid YouTube URL"), jobs)
  | some _ => ((freshId, none), setJob jobs freshId ⟨JobStatus.pending, none⟩)

-- ### Database rows (init.sql) and the orchestrator state

/-- A row of `youtube_channels` (init.sql lines 11-18). -/
structure Channel where
  id : String
  channel_id : String
  channel_name : String
  channel_url : String
  category : String
deriving DecidableEq

/-- A row of `videos` (init.sql lines 23-36).  `fetched_at` is `NOW()` at
insert time and is irrelevant to every property below, so it is omitted. -/
structure VideoRow where
  video_id : String
  title : String
  thumbnail : String
  summary : String
  video_url : String
  published_at : String
  channel_id : String
  duration_seconds : Option Nat
deriving DecidableEq

/-- A row of `pending_videos` (init.sql lines 41-53).  `added_at` is modelled
by the position in the list (rows are appended on insert and the only read is
`ORDER BY added_at ASC`); `retry_count` defaults to 0. -/
structure PendingRow where
  video_id : String
  title : String
  thumbnail : String
  description : String
  video_url : String
  published_at : String
  channel_id : String
  duration_seconds : Option Nat
  retry_count : Nat
deriving DecidableEq

/-- The durable state: the three tables the pipeline touches. -/
structure DBState where
  channels : List Channel
  videos : List VideoRow
  pending : List PendingRow
deriving DecidableEq

/-- `SELECT id FROM videos WHERE video_id = $1` — nonempty result. -/
def videoExists (st : DBState) (vid : String) : Bool :=
  st.videos.any (fun r => r.video_id = vid)

/-- `SELECT id FROM pending_videos WHERE video_id = $1` — nonempty result. -/
def pendingExists (st : DBState) (vid : String) : Bool :=
  st.pending.any (fun r => r.video_id = vid)

/-- Unique-constraint violation raised by an INSERT without a conflict
clause into a column declared UNIQUE. -/
inductive DbError where
  | uniqueViolation : DbError
deriving DecidableEq

/-- `INSERT INTO videos ... ` without a conflict clause (`fetchVideos.ts`
lines 405-418): raises a unique violation when a row with the same
`video_id` exists, otherwise appends the row. -/
def insertVideoStrict (st : DBState) (r : VideoRow) : Except DbError DBState :=
  if videoExists st r.video_id then Except.error DbError.uniqueViolation
  else Except.ok { st with videos := st.videos ++ [r] }

/-- `INSERT INTO videos ... ON CONFLICT (video_id) DO NOTHING`
(`fetchVideos.ts` lines 291-305): swallow the conflict. -/
def insertVideoIdem (st : DBState) (r : VideoRow) : DBState :=
  if videoExists st r.video_id then st
  else { st with videos := st.videos ++ [r] }

/-- `INSERT INTO pending_videos ... ON CONFLICT (video_id) DO NOTHING`
(`fetchVideos.ts` lines 380-394); `retry_count` takes its column default 0
(the INSERT does not mention it). -/
def insertPendingIdem (st : DBState) (r : PendingRow) : DBState :=
  if pendingExists st r.video_id then st
  else { st with pending := st.pending ++ [r] }

/-- `DELETE FROM pending_videos WHERE video_id = $1`. -/
def deletePending (st : DBState) (vid : String) : DBState :=
  { st with pending := st.pending.filter (fun r => r.video_id ≠ vid) }

/-- `UPDATE pending_videos SET retry_count = retry_count + 1 WHERE video_id = $1`. -/
def incrementPendingRetry (st : DBState) (vid : String) : DBState :=
  { st with pending := st.pending.map (fun r =>
      if r.video_id = vid then { r with retry_count := r.retry_count + 1 } else r) }

-- ### Video discovery (fetchLatestVideos)

/-- One item of the YouTube search response, already projected to the fields
the `data.items.map` of `fetchLatestVideos` reads. -/
structure SearchItem where
  videoId : String
  title : String
  description : String
  thumbnail : String
  publishedAt : String
deriving DecidableEq

/-- Outcome of the YouTube search HTTP exchange for one channel:
`unreachable` models `fetch` rejecting (the error propagates out of
`fetchLatestVideos`, which has no try/catch); `httpError` models
`!response.ok`; `payload none` a body without an `items` array;
`payload (some items)` a well-formed body. -/
inductive SearchOutcome where
  | unreachable : SearchOutcome
  | httpError (status : Nat) : SearchOutcome
  | payload (items : Option (List SearchItem)) : SearchOutcome
deriving DecidableEq

/-- A candidate video after parsing and duration resolution. -/
structure ParsedVideo where
  id : String
  title : String
  description : String
  thumbnail : String
  publishedAt : String
  durationSeconds : Option Nat
deriving DecidableEq

/-- The oracle bundle for one orchestrator run: everything the run reads
from outside the database.  `apiKey` is `process.env.YOUTUBE_API_KEY`;
`search` gives the YouTube search outcome per channel external id;
`durationOf` is `durationsMap.get(id) ?? null` after the batched
`fetchVideoDurations` call; `transcriptOf` is the result of
`getTranscriptFromYouTube` per video id; `summarize` is
`generateSummaryWithOpenRouter` applied to transcript and title (total:
that function returns a fallback string on every failure). -/
structure Env where
  apiKey : Option String
  search : String → SearchOutcome
  durationOf : String → Option Nat
  transcriptOf : String → Option String
  summarize : String → String → String

/-- `fetchLatestVideos` from `fetchVideos.ts` (lines 75-131).  A missing API
key, a non-ok response, or a body without an `items` array yields `[]`; a
rejected `fetch` propagates as an exception (`Except.error`).  The
`hoursAgo` window only shapes the outbound query and is absorbed by the
`search` oracle. -/
def fetchLatestVideos (env : Env) (channelId : String) (_hoursAgo : Nat) :
    Except Unit (List ParsedVideo) :=
  match env.apiKey with
  | none => Except.ok []
  | some _ =>
    match env.search channelId with
    | SearchOutcome.unreachable => Except.error ()
    | SearchOutcome.httpError _ => Except.ok []
    | SearchOutcome.payload none => Except.ok []
    | SearchOutcome.payload (some items) =>
      Except.ok (items.map (fun it =>
        { id := it.videoId
          title := it.title
          description := it.description
          thumbnail := it.thumbnail
          publishedAt := it.publishedAt
          durationSeconds := env.durationOf it.videoId }))

-- ### The discovery loop of fetchAndSummarizeVideos

/-- The `pending_videos` row inserted for a candidate without a usable
transcript (`fetchVideos.ts` lines 380-394). -/
def pendingRowOfVideo (chan : Channel) (v : ParsedVideo) : PendingRow :=
  { video_id := v.id
    title := v.title
    thumbnail := v.thumbnail
    description := v.description
    video_url := "https://youtube.com/watch?v=" ++ v.id
    published_at := v.publishedAt
    channel_id := chan.id
    duration_seconds := v.durationSeconds
    retry_count := 0 }

/-- The `videos` row inserted for a summarized candidate (`fetchVideos.ts`
lines 405-418). -/
def videoRowOfCandidate (chan : Channel) (v : ParsedVideo) (summary : String) : VideoRow :=
  { video_id := v.id
    title := v.title
    thumbnail := v.thumbnail
    summary := summary
    video_url := "https://youtube.com/watch?v=" ++ v.id
    published_at := v.publishedAt
    channel_id := chan.id
    duration_seconds := v.durationSeconds }

/-- The body of the `for (const video of videos)` loop (`fetchVideos.ts`
lines 355-421): skip when the id is in `videos` or `pending_videos`
(checked before transcript extraction); enqueue as pending when the
transcript is `null` or shorter than 100 characters; otherwise summarize
and insert into `videos` with the conflict-less INSERT, whose possible
unique violation is returned as the error component (to be caught by the
channel-level try/catch). -/
def processCandidate (env : Env) (chan : Channel) (st : DBState) (v : ParsedVideo) :
    DBState × Option DbError :=
  if videoExists st v.id || pendingExists st v.id then (st, none)
  else
    match env.transcriptOf v.id with
    | none => (insertPendingIdem st (pendingRowOfVideo chan v), none)
    | some t =>
      if t.length < 100 then (insertPendingIdem st (pendingRowOfVideo chan v), none)
      else
        match insertVideoStrict st (videoRowOfCandidate chan v (env.summarize t v.title)) with
        | Except.error e => (st, some e)
        | Except.ok st' => (st', none)

/-- The candidate loop of one channel: a thrown database error aborts the
remaining candidates of this channel (it is caught by the per-channel
try/catch), keeping the state already reached. -/
def processChannelCandidates (env : Env) (chan : Channel) :
    DBState → List ParsedVideo → DBState
  | st, [] => st
  | st, v :: rest =>
    match processCandidate env chan st v with
    | (st', some _) => st'
    | (st', none) => processChannelCandidates env chan st' rest

/-- The body of the `for (const channel of channels)` loop (`fetchVideos.ts`
lines 344-429): discovery, then the candidate loop; any error (including a
rejected discovery `fetch`) is caught at this level and leaves the state
reached so far. -/
def processChannel (env : Env) (st : DBState) (chan : Channel) : DBState :=
  match fetchLatestVideos env chan.channel_id 24 with
  | Except.error _ => st
  | Except.ok vids => processChannelCandidates env chan st vids

/-- The channel loop itself. -/
def processChannels (env : Env) : DBState → List Channel → DBState
  | st, [] => st
  | st, c :: rest => processChannels env (processChannel env st c) rest

-- ### The pending-queue retry pass (processPendingVideos)

/-- The still-no-transcript branch (`fetchVideos.ts` lines 263-284): a row
already at `retry_count >= 1` is deleted, otherwise its counter is
incremented.  `row` is the snapshot row from the initial SELECT. -/
def pendingFailStep (st : DBState) (row : PendingRow) : DBState :=
  if row.retry_count ≥ 1 then deletePending st row.video_id
  else incrementPendingRetry st row.video_id

/-- The body of the `for (const row of pending)` loop (`fetchVideos.ts`
lines 259-316): retry the transcript; on success summarize, insert into
`videos` with `ON CONFLICT DO NOTHING`, and delete the pending row. -/
def processPendingRow (env : Env) (st : DBState) (row : PendingRow) : DBState :=
  match env.transcriptOf row.video_id with
  | none => pendingFailStep st row
  | some t =>
    if t.length < 100 then pendingFailStep st row
    else
      let summary := env.summarize t row.title
      deletePending
        (insertVideoIdem st
          { video_id := row.video_id
            title := row.title
            thumbnail := row.thumbnail
            summary := summary
            video_url := row.video_url
            published_at := row.published_at
            channel_id := row.channel_id
            duration_seconds := row.duration_seconds })
        row.video_id

/-- The pending loop over the snapshot list. -/
def processPendingList (env : Env) : DBState → List PendingRow → DBState
  | st, [] => st
  | st, r :: rest => processPendingList env (processPendingRow env st r) rest

/-- `processPendingVideos` (`fetchVideos.ts` lines 247-317): one SELECT of
the whole queue in `added_at ASC` order, then the loop over that snapshot. -/
def processPendingVideos (env : Env) (st : DBState) : DBState :=
  processPendingList env st st.pending

/-- SQL `LOWER`, applied characterwise (category labels are ASCII). -/
def lowerString (s : String) : String :=
  String.mk (s.data.map Char.toLower)

/-- `fetchAndSummarizeVideos` (`fetchVideos.ts` lines 324-437): load the
channels of the requested category (case-insensitively, the
`LOWER(category) = LOWER($1)` comparison); when none match, return — note
that this early return also skips `processPendingVideos`; otherwise run the
channel loop and then the pending pass. -/
def fetchAndSummarizeVideos (env : Env) (categoryFilter : String) (st : DBState) : DBState :=
  let channels := st.channels.filter (fun c =>
    decide (lowerString c.category = lowerString categoryFilter))
  if channels.isEmpty then st
  else processPendingVideos env (processChannels env st channels)

-- ### Derived notions used by the statements

/-- The transcript test `(!transcript || transcript.length < 100)` shared by
the discovery loop (line 375) and the pending pass (line 263): `null` is
falsy, and so is the empty string, whose length is below 100 anyway. -/
def unusableTranscript : Option String → Bool
  | none => true
  | some t => t.length < 100

/-- The external video ids present in the `videos` table. -/
def videoIds (st : DBState) : List String :=
  st.videos.map (fun r => r.video_id)

/-- The external video ids present in the `pending_videos` table. -/
def pendingIds (st : DBState) : List String :=
  st.pending.map (fun r => r.video_id)

/-- The UNIQUE constraints of init.sql on `videos.video_id` and
`pending_videos.video_id`: no table holds two rows for one external id. -/
def Dedup (st : DBState) : Prop :=
  (videoIds st).Nodup ∧ (pendingIds st).Nodup

/-- Mutual exclusion of the two tables: an external id is never in both. -/
def MutEx (st : DBState) : Prop :=
  ∀ id, id ∈ videoIds st → id ∉ pendingIds st

/-- The healthy-database invariant: unique ids per table plus mutual
exclusion. -/
def Good (st : DBState) : Prop :=
  Dedup st ∧ MutEx st

-- ### Step-level traces: the state after each database write
--
-- Each `...States` function mirrors its un-suffixed counterpart and returns
-- the list of states observed right after each INSERT/UPDATE/DELETE that the
-- run executes (reads do not change state; a failed INSERT leaves the state
-- unchanged and contributes no entry).

/-- States written while processing one discovery candidate. -/
def processCandidateStates (env : Env) (chan : Channel) (st : DBState)
    (v : ParsedVideo) : List DBState :=
  if videoExists st v.id || pendingExists st v.id then []
  else
    match env.transcriptOf v.id with
    | none => [insertPendingIdem st (pendingRowOfVideo chan v)]
    | some t =>
      if t.length < 100 then [insertPendingIdem st (pendingRowOfVideo chan v)]
      else
        match insertVideoStrict st (videoRowOfCandidate chan v (env.summarize t v.title)) with
        | Except.error _ => []
        | Except.ok st' => [st']

/-- States written by the candidate loop of one channel. -/
def candidatesStates (env : Env) (chan : Channel) :
    DBState → List ParsedVideo → List DBState
  | _, [] => []
  | st, v :: rest =>
    match processCandidate env chan st v with
    | (_, some _) => processCandidateStates env chan st v
    | (st', none) =>
      processCandidateStates env chan st v ++ candidatesStates env chan st' rest

/-- States written while processing one channel. -/
def channelStates (env : Env) (st : DBState) (chan : Channel) : List DBState :=
  match fetchLatestVideos env chan.channel_id 24 with
  | Except.error _ => []
  | Except.ok vids => candidatesStates env chan st vids

/-- States written by the channel loop. -/
def channelsStates (env : Env) : DBState → List Channel → List DBState
  | _, [] => []
  | st, c :: rest =>
    channelStates env st c ++ channelsStates env (processChannel env st c) rest

/-- States written while processing one pending row: the promotion path
performs two writes, the `videos` INSERT first and the pending DELETE
second, so it contributes two states. -/
def pendingRowStates (env : Env) (st : DBState) (row : PendingRow) : List DBState :=
  match env.transcriptOf row.video_id with
  | none => [pendingFailStep st row]
  | some t =>
    if t.length < 100 then [pendingFailStep st row]
    else
      let summary := env.summarize t row.title
      let inserted := insertVideoIdem st
        { video_id := row.video_id
          title := row.title
          thumbnail := row.thumbnail
          summary := summary
          video_url := row.video_url
          published_at := row.published_at
          channel_id := row.channel_id
          duration_seconds := row.duration_seconds }
      [inserted, deletePending inserted row.video_id]

/-- States written by the pending loop. -/
def pendingListStates (env : Env) : DBState → List PendingRow → List DBState
  | _, [] => []
  | st, r :: rest =>
    pendingRowStates env st r ++ pendingListStates env (processPendingRow env st r) rest

/-- All states reachable during one orchestrator invocation, one entry per
database write, in execution order. -/
def runStates (env : Env) (categoryFilter : String) (st : DBState) : List DBState :=
  let channels := st.channels.filter (fun c =>
    decide (lowerString c.category = lowerString categoryFilter))
  if channels.isEmpty then []
  else
    channelsStates env st channels ++
      pendingListStates env (processChannels env st channels)
        (processChannels env st channels).pending

/-- Last state of a trace, with the starting state as default: the fold
keeps the most recent entry. -/
def lastState (states : List DBState) (st : DBState) : DBState :=
  states.foldl (fun _ s => s) st

-- ### Lemmas: existence queries against id lists

lemma videoExists_eq_true_iff {st : DBState} {v : String} :
    videoExists st v = true ↔ v ∈ videoIds st := by
  simp [videoExists, videoIds, List.any_eq_true, List.mem_map]

lemma pendingExists_eq_true_iff {st : DBState} {v : String} :
    pendingExists st v = true ↔ v ∈ pendingIds st := by
  simp [pendingExists, pendingIds, List.any_eq_true, List.mem_map]

lemma videoExists_eq_false_iff {st : DBState} {v : String} :
    videoExists st v = false ↔ v ∉ videoIds st := by
  rw [← videoExists_eq_true_iff]
  cases h : videoExists st v <;> simp [h]

lemma pendingExists_eq_false_iff {st : DBState} {v : String} :
    pendingExists st v = false ↔ v ∉ pendingIds st := by
  rw [← pendingExists_eq_true_iff]
  cases h : pendingExists st v <;> simp [h]

-- ### Lemmas: effect of the single write operations on the id lists

lemma videoIds_insertPendingIdem (st : DBState) (r : PendingRow) :
    videoIds (insertPendingIdem st r) = videoIds st := by
  unfold insertPendingIdem; split <;> rfl

lemma pendingIds_insertVideoIdem (st : DBState) (r : VideoRow) :
    pendingIds (insertVideoIdem st r) = pendingIds st := by
  unfold insertVideoIdem; split <;> rfl

lemma videoIds_deletePending (st : DBState) (x : String) :
    videoIds (deletePending st x) = videoIds st := rfl

lemma videoIds_incrementPendingRetry (st : DBState) (x : String) :
    videoIds (incrementPendingRetry st x) = videoIds st := rfl

lemma pendingIds_incrementPendingRetry (st : DBState) (x : String) :
    pendingIds (incrementPendingRetry st x) = pendingIds st := by
  unfold pendingIds incrementPendingRetry
  rw [List.map_map]
  apply List.map_congr_left
  intro a _
  by_cases h : a.video_id = x <;> simp [h]

lemma mem_pendingIds_deletePending {st : DBState} {x i : String} :
    i ∈ pendingIds (deletePending st x) ↔ i ∈ pendingIds st ∧ i ≠ x := by
  simp only [pendingIds, deletePending, List.mem_map, List.mem_filter]
  constructor
  · rintro ⟨a, ⟨ha, hax⟩, rfl⟩
    exact ⟨⟨a, ha, rfl⟩, by simpa using hax⟩
  · rintro ⟨⟨a, ha, rfl⟩, hix⟩
    exact ⟨a, ⟨ha, by simpa using hix⟩, rfl⟩

lemma mem_videoIds_insertVideoIdem {st : DBState} {r : VideoRow} {i : String} :
    i ∈ videoIds (insertVideoIdem st r) ↔ i ∈ videoIds st ∨ i = r.video_id := by
  unfold insertVideoIdem
  split
  · rename_i h
    rw [videoExists_eq_true_iff] at h
    constructor
    · exact Or.inl
    · rintro (hi | rfl)
      · exact hi
      · exact h
  · simp [videoIds, List.mem_map]

lemma nodup_pendingIds_deletePending {st : DBState} {x : String}
    (h : (pendingIds st).Nodup) : (pendingIds (deletePending st x)).Nodup := by
  have hsub : (deletePending st x).pending.Sublist st.pending :=
    List.filter_sublist _
  have hmap := hsub.map (fun r => r.video_id)
  exact hmap.nodup (by simpa [pendingIds] using h)

-- ### Lemmas: the Good invariant survives every write the pipeline performs

lemma good_congr {st st' : DBState} (hv : videoIds st' = videoIds st)
    (hp : pendingIds st' = pendingIds st) (h : Good st) : Good st' := by
  obtain ⟨⟨h1, h2⟩, h3⟩ := h
  refine ⟨⟨?_, ?_⟩, ?_⟩
  · rw [hv]; exact h1
  · rw [hp]; exact h2
  · intro id hid
    rw [hv] at hid
    rw [hp]
    exact h3 id hid

lemma good_insertPendingIdem {st : DBState} {r : PendingRow} (h : Good st)
    (hv : r.video_id ∉ videoIds st) : Good (insertPendingIdem st r) := by
  unfold insertPendingIdem
  split
  · exact h
  · rename_i hnp
    rw [pendingExists_eq_true_iff] at hnp
    obtain ⟨⟨h1, h2⟩, h3⟩ := h
    refine ⟨⟨h1, ?_⟩, ?_⟩
    · simpa [pendingIds, List.nodup_append] using ⟨h2, by simpa [pendingIds] using hnp⟩
    · intro id hid
      simp only [pendingIds, List.map_append, List.mem_append, List.map_cons,
        List.map_nil, List.mem_singleton] at *
      rintro (hmem | rfl)
      · exact h3 id hid hmem
      · exact hv hid

lemma good_insertVideoStrict {st st' : DBState} {r : VideoRow} (h : Good st)
    (hp : r.video_id ∉ pendingIds st)
    (hok : insertVideoStrict st r = Except.ok st') : Good st' := by
  unfold insertVideoStrict at hok
  split at hok
  · cases hok
  · rename_i hnv
    cases hok
    rw [videoExists_eq_true_iff] at hnv
    obtain ⟨⟨h1, h2⟩, h3⟩ := h
    refine ⟨⟨?_, h2⟩, ?_⟩
    · simpa [videoIds, List.nodup_append] using ⟨h1, by simpa [videoIds] using hnv⟩
    · intro id hid
      simp only [videoIds, List.map_append, List.mem_append, List.map_cons,
        List.map_nil, List.mem_singleton] at hid
      rcases hid with hmem | rfl
      · exact h3 id hmem
      · exact hp

lemma good_deletePending {st : DBState} {x : String} (h : Good st) :
    Good (deletePending st x) := by
  obtain ⟨⟨h1, h2⟩, h3⟩ := h
  refine ⟨⟨by rw [videoIds_deletePending]; exact h1,
    nodup_pendingIds_deletePending h2⟩, ?_⟩
  intro id hid
  rw [videoIds_deletePending] at hid
  rw [mem_pendingIds_deletePending]
  rintro ⟨hmem, _⟩
  exact h3 id hid hmem

lemma good_promote {st : DBState} {r : VideoRow} (h : Good st) :
    Good (deletePending (insertVideoIdem st r) r.video_id) := by
  obtain ⟨⟨h1, h2⟩, h3⟩ := h
  have hins : (videoIds (insertVideoIdem st r)).Nodup := by
    unfold insertVideoIdem
    split
    · exact h1
    · rename_i hnv
      rw [videoExists_eq_true_iff] at hnv
      simpa [videoIds, List.nodup_append] using ⟨h1, by simpa [videoIds] using hnv⟩
  refine ⟨⟨?_, ?_⟩, ?_⟩
  · rw [videoIds_deletePending]; exact hins
  · exact nodup_pendingIds_deletePending (by rw [pendingIds_insertVideoIdem]; exact h2)
  · intro id hid
    rw [videoIds_deletePending, mem_videoIds_insertVideoIdem] at hid
    rw [mem_pendingIds_deletePending, pendingIds_insertVideoIdem]
    rcases hid with hmem | rfl
    · rintro ⟨hpmem, _⟩
      exact h3 id hmem hpmem
    · rintro ⟨_, hne⟩
      exact hne rfl

lemma good_pendingFailStep {st : DBState} {row : PendingRow} (h : Good st) :
    Good (pendingFailStep st row) := by
  unfold pendingFailStep
  split
  · exact good_deletePending h
  · exact good_congr (videoIds_incrementPendingRetry st row.video_id)
      (pendingIds_incrementPendingRetry st row.video_id) h

lemma good_processCandidate {env : Env} {chan : Channel} {st : DBState}
    {v : ParsedVideo} (h : Good st) : Good (processCandidate env chan st v).1 := by
  unfold processCandidate
  split
  · exact h
  · rename_i hex
    rw [Bool.or_eq_true, not_or, videoExists_eq_true_iff,
      pendingExists_eq_true_iff] at hex
    obtain ⟨hv, hp⟩ := hex
    split
    · exact good_insertPendingIdem h hv
    · split
      · exact good_insertPendingIdem h hv
      · split
        · exact h
        · rename_i st' hok
          exact good_insertVideoStrict h hp hok

lemma good_processPendingRow {env : Env} {st : DBState} {row : PendingRow}
    (h : Good st) : Good (processPendingRow env st row) := by
  unfold processPendingRow
  split
  · exact good_pendingFailStep h
  · split
    · exact good_pendingFailStep h
    · exact good_promote h

lemma good_processChannelCandidates {env : Env} {chan : Channel}
    {vids : List ParsedVideo} :
    ∀ {st : DBState}, Good st → Good (processChannelCandidates env chan st vids) := by
  induction vids with
  | nil => intro st h; exact h
  | cons v rest ih =>
    intro st h
    unfold processChannelCandidates
    have hg := @good_processCandidate env chan st v h
    rcases hpc : processCandidate env chan st v with ⟨st', err⟩
    rw [hpc] at hg
    cases err
    · exact ih hg
    · exact hg

lemma good_processChannel {env : Env} {st : DBState} {chan : Channel}
    (h : Good st) : Good (processChannel env st chan) := by
  unfold processChannel
  split
  · exact h
  · exact good_processChannelCandidates h

lemma good_processChannels {env : Env} {chans : List Channel} :
    ∀ {st : DBState}, Good st → Good (processChannels env st chans) := by
  induction chans with
  | nil => intro st h; exact h
  | cons c rest ih =>
    intro st h
    exact ih (good_processChannel h)

lemma good_processPendingList {env : Env} {rows : List PendingRow} :
    ∀ {st : DBState}, Good st → Good (processPendingList env st rows) := by
  induction rows with
  | nil => intro st h; exact h
  | cons r rest ih =>
    intro st h
    exact ih (good_processPendingRow h)

lemma good_processPendingVideos {env : Env} {st : DBState} (h : Good st) :
    Good (processPendingVideos env st) :=
  good_processPendingList h

lemma good_fetchAndSummarizeVideos {env : Env} {filter : String} {st : DBState}
    (h : Good st) : Good (fetchAndSummarizeVideos env filter st) := by
  unfold fetchAndSummarizeVideos
  dsimp only
  split
  · exact h
  · exact good_processPendingVideos (good_processChannels h)

lemma processCandidate_snd_eq_none {env : Env} {chan : Channel} {st : DBState}
    {v : ParsedVideo} : (processCandidate env chan st v).2 = none := by
  unfold processCandidate
  split
  · rfl
  · rename_i hex
    rw [Bool.or_eq_true, not_or] at hex
    obtain ⟨hv, _⟩ := hex
    split
    · rfl
    · split
      · rfl
      · split
        · rename_i herr
          exfalso
          unfold insertVideoStrict at herr
          split at herr
          · rename_i hvex
            exact hv hvex
          · cases herr
        · rfl

-- ### Lemmas: the pending pass only shrinks the queue and only grows `videos`

lemma pendingIds_pendingFailStep_subset {st : DBState} {row : PendingRow}
    {i : String} (h : i ∈ pendingIds (pendingFailStep st row)) :
    i ∈ pendingIds st := by
  unfold pendingFailStep at h
  split at h
  · exact (mem_pendingIds_deletePending.mp h).1
  · rwa [pendingIds_incrementPendingRetry] at h

lemma pendingIds_processPendingRow_subset {env : Env} {st : DBState}
    {row : PendingRow} {i : String}
    (h : i ∈ pendingIds (processPendingRow env st row)) : i ∈ pendingIds st := by
  unfold processPendingRow at h
  split at h
  · exact pendingIds_pendingFailStep_subset h
  · split at h
    · exact pendingIds_pendingFailStep_subset h
    · rw [mem_pendingIds_deletePending, pendingIds_insertVideoIdem] at h
      exact h.1

lemma pendingIds_processPendingList_subset {env : Env} {i : String} :
    ∀ (rows : List PendingRow) (st : DBState),
      i ∈ pendingIds (processPendingList env st rows) → i ∈ pendingIds st := by
  intro rows
  induction rows with
  | nil => intro st h; exact h
  | cons r rest ih =>
    intro st h
    exact pendingIds_processPendingRow_subset (ih _ h)

lemma videoIds_pendingFailStep {st : DBState} {row : PendingRow} :
    videoIds (pendingFailStep st row) = videoIds st := by
  unfold pendingFailStep
  split
  · exact videoIds_deletePending st row.video_id
  · exact videoIds_incrementPendingRetry st row.video_id

lemma videoIds_processPendingRow_mono {env : Env} {st : DBState}
    {row : PendingRow} {i : String} (h : i ∈ videoIds st) :
    i ∈ videoIds (processPendingRow env st row) := by
  unfold processPendingRow
  split
  · rwa [videoIds_pendingFailStep]
  · split
    · rwa [videoIds_pendingFailStep]
    · rw [videoIds_deletePending, mem_videoIds_insertVideoIdem]
      exact Or.inl h

lemma videoIds_processPendingList_mono {env : Env} {i : String} :
    ∀ (rows : List PendingRow) (st : DBState),
      i ∈ videoIds st → i ∈ videoIds (processPendingList env st rows) := by
  intro rows
  induction rows with
  | nil => intro st h; exact h
  | cons r rest ih =>
    intro st h
    exact ih _ (videoIds_processPendingRow_mono h)

-- ### Lemmas: per-row outcome of the pending pass

lemma processPendingRow_discards {env : Env} {st : DBState} {row : PendingRow}
    (hu : unusableTranscript (env.transcriptOf row.video_id) = true)
    (hr : 1 ≤ row.retry_count) :
    row.video_id ∉ pendingIds (processPendingRow env st row) := by
  have hfail : ∀ s : DBState, row.video_id ∉ pendingIds (pendingFailStep s row) := by
    intro s
    unfold pendingFailStep
    rw [if_pos hr, mem_pendingIds_deletePending]
    rintro ⟨_, hne⟩
    exact hne rfl
  unfold processPendingRow
  split
  · exact hfail st
  · rename_i t htr
    rw [htr] at hu
    simp only [unusableTranscript, decide_eq_true_eq] at hu
    rw [if_pos hu]
    exact hfail st

lemma processPendingRow_promotes {env : Env} {st : DBState} {row : PendingRow}
    (hu : unusableTranscript (env.transcriptOf row.video_id) = false) :
    row.video_id ∈ videoIds (processPendingRow env st row) ∧
      row.video_id ∉ pendingIds (processPendingRow env st row) := by
  unfold processPendingRow
  split
  · rename_i htr
    rw [htr] at hu
    simp [unusableTranscript] at hu
  · rename_i t htr
    rw [htr] at hu
    simp only [unusableTranscript, decide_eq_false_iff_not, not_lt] at hu
    rw [if_neg (by omega)]
    constructor
    · rw [videoIds_deletePending, mem_videoIds_insertVideoIdem]
      exact Or.inr rfl
    · rw [mem_pendingIds_deletePending]
      rintro ⟨_, hne⟩
      exact hne rfl

lemma processPendingList_discards {env : Env} {row : PendingRow}
    (hu : unusableTranscript (env.transcriptOf row.video_id) = true)
    (hr : 1 ≤ row.retry_count) :
    ∀ (rows : List PendingRow) (st : DBState), row ∈ rows →
      row.video_id ∉ pendingIds (processPendingList env st rows) := by
  intro rows
  induction rows with
  | nil => intro st h; cases h
  | cons r rest ih =>
    intro st hmem
    rcases List.mem_cons.mp hmem with rfl | hmem
    · intro hin
      exact processPendingRow_discards hu hr
        (pendingIds_processPendingList_subset rest _ hin)
    · exact ih _ hmem

lemma processPendingList_promotes {env : Env} {row : PendingRow}
    (hu : unusableTranscript (env.transcriptOf row.video_id) = false) :
    ∀ (rows : List PendingRow) (st : DBState), row ∈ rows →
      row.video_id ∈ videoIds (processPendingList env st rows) ∧
        row.video_id ∉ pendingIds (processPendingList env st rows) := by
  intro rows
  induction rows with
  | nil => intro st h; cases h
  | cons r rest ih =>
    intro st hmem
    rcases List.mem_cons.mp hmem with rfl | hmem
    · obtain ⟨hv, hp⟩ := @processPendingRow_promotes env st row hu
      refine ⟨videoIds_processPendingList_mono rest _ hv, ?_⟩
      intro hin
      exact hp (pendingIds_processPendingList_subset rest _ hin)
    · exact ih _ hmem

-- ### Lemmas: an id with a still-unusable transcript never enters `videos`

lemma videoIds_processCandidate_not_new {env : Env} {chan : Channel}
    {st : DBState} {v : ParsedVideo} {i : String}
    (hu : unusableTranscript (env.transcriptOf i) = true)
    (h : i ∉ videoIds st) : i ∉ videoIds (processCandidate env chan st v).1 := by
  unfold processCandidate
  split
  · exact h
  · cases htr : env.transcriptOf v.id with
    | none => rwa [videoIds_insertPendingIdem]
    | some t =>
      dsimp only
      by_cases hlen : t.length < 100
      · rw [if_pos hlen]
        rwa [videoIds_insertPendingIdem]
      · rw [if_neg hlen]
        cases hok : insertVideoStrict st
            (videoRowOfCandidate chan v (env.summarize t v.title)) with
        | error e => exact h
        | ok st' =>
          unfold insertVideoStrict at hok
          split at hok
          · cases hok
          · cases hok
            intro hin
            simp only [videoIds, List.map_append, List.mem_append,
              List.map_cons, List.map_nil, List.mem_singleton] at hin
            rcases hin with hin | hin
            · exact h (by simpa [videoIds] using hin)
            · rw [show (videoRowOfCandidate chan v
                (env.summarize t v.title)).video_id = v.id from rfl] at hin
              subst hin
              rw [htr] at hu
              simp only [unusableTranscript, decide_eq_true_eq] at hu
              omega

lemma videoIds_processChannelCandidates_not_new {env : Env} {chan : Channel}
    {i : String} (hu : unusableTranscript (env.transcriptOf i) = true) :
    ∀ (vids : List ParsedVideo) (st : DBState), i ∉ videoIds st →
      i ∉ videoIds (processChannelCandidates env chan st vids) := by
  intro vids
  induction vids with
  | nil => intro st h; exact h
  | cons v rest ih =>
    intro st h
    unfold processChannelCandidates
    have hstep := @videoIds_processCandidate_not_new env chan st v i hu h
    rcases hpc : processCandidate env chan st v with ⟨st', err⟩
    rw [hpc] at hstep
    cases err
    · exact ih _ hstep
    · exact hstep

lemma videoIds_processChannel_not_new {env : Env} {chan : Channel}
    {st : DBState} {i : String}
    (hu : unusableTranscript (env.transcriptOf i) = true)
    (h : i ∉ videoIds st) : i ∉ videoIds (processChannel env st chan) := by
  unfold processChannel
  split
  · exact h
  · exact videoIds_processChannelCandidates_not_new hu _ _ h

lemma videoIds_processChannels_not_new {env : Env} {i : String}
    (hu : unusableTranscript (env.transcriptOf i) = true) :
    ∀ (chans : List Channel) (st : DBState), i ∉ videoIds st →
      i ∉ videoIds (processChannels env st chans) := by
  intro chans
  induction chans with
  | nil => intro st h; exact h
  | cons c rest ih =>
    intro st h
    exact ih _ (videoIds_processChannel_not_new hu h)

lemma videoIds_processPendingRow_not_new {env : Env} {st : DBState}
    {row : PendingRow} {i : String}
    (hu : unusableTranscript (env.transcriptOf i) = true)
    (h : i ∉ videoIds st) : i ∉ videoIds (processPendingRow env st row) := by
  unfold processPendingRow
  split
  · rwa [videoIds_pendingFailStep]
  · split
    · rwa [videoIds_pendingFailStep]
    · rename_i t htr hlen
      rw [videoIds_deletePending, mem_videoIds_insertVideoIdem]
      rintro (hin | rfl)
      · exact h hin
      · rw [htr] at hu
        simp only [unusableTranscript, decide_eq_true_eq] at hu
        omega

lemma videoIds_processPendingList_not_new {env : Env} {i : String}
    (hu : unusableTranscript (env.transcriptOf i) = true) :
    ∀ (rows : List PendingRow) (st : DBState), i ∉ videoIds st →
      i ∉ videoIds (processPendingList env st rows) := by
  intro rows
  induction rows with
  | nil => intro st h; exact h
  | cons r rest ih =>
    intro st h
    exact ih _ (videoIds_processPendingRow_not_new hu h)

lemma videoIds_fetchAndSummarizeVideos_not_new {env : Env} {filter : String}
    {st : DBState} {i : String}
    (hu : unusableTranscript (env.transcriptOf i) = true)
    (h : i ∉ videoIds st) :
    i ∉ videoIds (fetchAndSummarizeVideos env filter st) := by
  unfold fetchAndSummarizeVideos
  dsimp only
  split
  · exact h
  · exact videoIds_processPendingList_not_new hu _ _
      (videoIds_processChannels_not_new hu _ _ h)

-- ### Lemmas: the step trace ends in the state the run function returns

lemma lastState_append (a b : List DBState) (st : DBState) :
    lastState (a ++ b) st = lastState b (lastState a st) := by
  simp [lastState, List.foldl_append]

lemma lastState_processCandidateStates (env : Env) (chan : Channel)
    (st : DBState) (v : ParsedVideo) :
    lastState (processCandidateStates env chan st v) st =
      (processCandidate env chan st v).1 := by
  unfold processCandidateStates processCandidate
  split
  · rfl
  · split
    · rfl
    · split
      · rfl
      · split
        · rfl
        · rfl

lemma lastState_candidatesStates (env : Env) (chan : Channel) :
    ∀ (vids : List ParsedVideo) (st : DBState),
      lastState (candidatesStates env chan st vids) st =
        processChannelCandidates env chan st vids := by
  intro vids
  induction vids with
  | nil => intro st; rfl
  | cons v rest ih =>
    intro st
    unfold candidatesStates processChannelCandidates
    rcases hpc : processCandidate env chan st v with ⟨st', err⟩
    cases err
    · rw [lastState_append]
      have h1 : lastState (processCandidateStates env chan st v) st = st' := by
        rw [lastState_processCandidateStates, hpc]
      rw [h1, ih st']
    · rw [lastState_processCandidateStates, hpc]

lemma lastState_channelStates (env : Env) (st : DBState) (chan : Channel) :
    lastState (channelStates env st chan) st = processChannel env st chan := by
  unfold channelStates processChannel
  split
  · rfl
  · exact lastState_candidatesStates env chan _ st

lemma lastState_channelsStates (env : Env) :
    ∀ (chans : List Channel) (st : DBState),
      lastState (channelsStates env st chans) st = processChannels env st chans := by
  intro chans
  induction chans with
  | nil => intro st; rfl
  | cons c rest ih =>
    intro st
    unfold channelsStates processChannels
    rw [lastState_append, lastState_channelStates, ih]

lemma lastState_pendingRowStates (env : Env) (st : DBState) (row : PendingRow) :
    lastState (pendingRowStates env st row) st = processPendingRow env st row := by
  unfold pendingRowStates processPendingRow
  split
  · rfl
  · split
    · rfl
    · rfl

lemma lastState_pendingListStates (env : Env) :
    ∀ (rows : List PendingRow) (st : DBState),
      lastState (pendingListStates env st rows) st =
        processPendingList env st rows := by
  intro rows
  induction rows with
  | nil => intro st; rfl
  | cons r rest ih =>
    intro st
    unfold pendingListStates processPendingList
    rw [lastState_append, lastState_pendingRowStates, ih]

lemma lastState_runStates (env : Env) (filter : String) (st : DBState) :
    lastState (runStates env filter st) st = fetchAndSummarizeVideos env filter st := by
  unfold runStates fetchAndSummarizeVideos processPendingVideos
  dsimp only
  split
  · rfl
  · rw [lastState_append, lastState_channelsStates, lastState_pendingListStates]

-- ### Lemmas: branch characterizations of the candidate and pending steps

lemma processCandidate_skip {env : Env} {chan : Channel} {st : DBState}
    {v : ParsedVideo}
    (h : videoExists st v.id = true ∨ pendingExists st v.id = true) :
    processCandidate env chan st v = (st, none) := by
  unfold processCandidate
  rw [if_pos]
  rw [Bool.or_eq_true]
  exact h

lemma processCandidate_unusable {env : Env} {chan : Channel} {st : DBState}
    {v : ParsedVideo}
    (hu : unusableTranscript (env.transcriptOf v.id) = true)
    (hv : videoExists st v.id = false) (hp : pendingExists st v.id = false) :
    processCandidate env chan st v =
      (insertPendingIdem st (pendingRowOfVideo chan v), none) := by
  unfold processCandidate
  rw [if_neg (by rw [hv, hp]; simp)]
  cases htr : env.transcriptOf v.id with
  | none => rfl
  | some t =>
    rw [htr] at hu
    simp only [unusableTranscript, decide_eq_true_eq] at hu
    dsimp only
    rw [if_pos hu]

lemma processPendingRow_unusable {env : Env} {st : DBState} {row : PendingRow}
    (hu : unusableTranscript (env.transcriptOf row.video_id) = true) :
    processPendingRow env st row = pendingFailStep st row := by
  unfold processPendingRow
  cases htr : env.transcriptOf row.video_id with
  | none => rfl
  | some t =>
    rw [htr] at hu
    simp only [unusableTranscript, decide_eq_true_eq] at hu
    dsimp only
    rw [if_pos hu]

-- ### Lemmas: regex components of parseIso8601Duration on well-formed tokens

lemma takeWhile_digits_append {ds : List Char} {c : Char} {r : List Char}
    (hds : ds.all Char.isDigit = true) (hc : c.isDigit = false) :
    (ds ++ c :: r).takeWhile (fun x => x.isDigit) = ds := by
  induction ds with
  | nil => simp [List.takeWhile, hc]
  | cons d rest ih =>
    simp only [List.all_cons, Bool.and_eq_true] at hds
    simp [List.takeWhile, hds.1, ih hds.2]

lemma matchComponent_marked {ds r : List Char} {marker : Char}
    (hne : ds ≠ []) (hds : ds.all Char.isDigit = true)
    (hm : marker.isDigit = false) :
    matchComponent (ds ++ marker :: r) marker = (some ds, r) := by
  unfold matchComponent
  dsimp only
  rw [takeWhile_digits_append hds hm, List.drop_left]
  simp [hne]

-- ### C8: ISO-8601 duration parsing

/-- C8: `parseIso8601Duration` decomposes the token into hour/minute/second
components by pattern match, defaults unmatched components to zero, and
returns `hours * 3600 + minutes * 60 + seconds`; a token for 1h 2m 3s gives
3723, a minutes-only token gives 300, and malformed tokens give 0 without
throwing (the function is total). -/
theorem parseIso8601Duration_spec (hs ms ss : String)
    (h1 : hs.data ≠ [] ∧ hs.data.all Char.isDigit = true)
    (h2 : ms.data ≠ [] ∧ ms.data.all Char.isDigit = true)
    (h3 : ss.data ≠ [] ∧ ss.data.all Char.isDigit = true) :
    parseIso8601Duration "PT1H2M3S" = 3723 ∧
      parseIso8601Duration "PT5M" = 300 ∧
      parseIso8601Duration "one hour" = 0 ∧
      parseIso8601Duration "" = 0 ∧
      parseIso8601Duration ("PT" ++ hs ++ "H" ++ ms ++ "M" ++ ss ++ "S") =
        digitsToNat hs.data * 3600 + digitsToNat ms.data * 60 + digitsToNat ss.data := by
  obtain ⟨hne1, hd1⟩ := h1
  obtain ⟨hne2, hd2⟩ := h2
  obtain ⟨hne3, hd3⟩ := h3
  refine ⟨by decide, by decide, by decide, by decide, ?_⟩
  have hdata : ("PT" ++ hs ++ "H" ++ ms ++ "M" ++ ss ++ "S").data
      = 'P' :: 'T' :: (hs.data ++ 'H' :: (ms.data ++ 'M' :: (ss.data ++ ['S']))) := by
    have hPT : "PT".data = ['P', 'T'] := rfl
    have hH : "H".data = ['H'] := rfl
    have hM : "M".data = ['M'] := rfl
    have hS : "S".data = ['S'] := rfl
    simp [String.data_append, hPT, hH, hM, hS]
  unfold parseIso8601Duration
  rw [hdata]
  have hfind : findPT ('P' :: 'T' ::
      (hs.data ++ 'H' :: (ms.data ++ 'M' :: (ss.data ++ ['S'])))) =
      some (hs.data ++ 'H' :: (ms.data ++ 'M' :: (ss.data ++ ['S']))) := rfl
  rw [hfind]
  dsimp only
  rw [matchComponent_marked hne1 hd1 (by decide)]
  dsimp only
  rw [matchComponent_marked hne2 hd2 (by decide)]
  dsimp only
  rw [show ss.data ++ ['S'] = ss.data ++ 'S' :: [] from rfl,
    matchComponent_marked hne3 hd3 (by decide)]
  rfl

/-- Witness for C8 at the concrete token `PT12H34M56S`. -/
theorem parseIso8601Duration_spec_witness :
    parseIso8601Duration ("PT" ++ "12" ++ "H" ++ "34" ++ "M" ++ "56" ++ "S") =
      digitsToNat "12".data * 3600 + digitsToNat "34".data * 60 +
        digitsToNat "56".data :=
  (parseIso8601Duration_spec "12" "34" "56" ⟨by decide, by decide⟩
    ⟨by decide, by decide⟩ ⟨by decide, by decide⟩).2.2.2.2

-- ### C7: summarizer failure fallback

/-- C7: whenever the summarization call fails for any reason (missing
credentials, rejected fetch, non-success response, malformed payload),
`generateSummaryWithOpenRouter` returns the first 300 characters of the
input transcript followed by the ellipsis marker instead of raising, and
this fallback is non-empty whenever the input is non-empty. -/
theorem generateSummary_fallback (apiKey : Option String)
    (outcome : String → ChatOutcome) (t title : String)
    (hfail : apiKey = none ∨ ∀ c,
      outcome (if t.length > 8000 then t.take 8000 ++ "..." else t) ≠
        ChatOutcome.success c) :
    generateSummaryWithOpenRouter apiKey outcome t title = t.take 300 ++ "..." ∧
      (t ≠ "" → generateSummaryWithOpenRouter apiKey outcome t title ≠ "") := by
  have hmain : generateSummaryWithOpenRouter apiKey outcome t title =
      t.take 300 ++ "..." := by
    unfold generateSummaryWithOpenRouter
    cases apiKey with
    | none => rfl
    | some k =>
      rcases hfail with h | h
      · cases h
      · dsimp only
        cases houtcome : outcome (if t.length > 8000 then t.take 8000 ++ "..." else t) with
        | unreachable => rfl
        | httpError s => rfl
        | malformed => rfl
        | success c => exact absurd houtcome (h c)
  refine ⟨hmain, fun _ => ?_⟩
  rw [hmain]
  intro hcontra
  have hlen := congrArg String.length hcontra
  simp [String.length_append] at hlen
  exact absurd hlen.2 (by decide)

/-- Witness for C7: missing API key with transcript `"hello"`. -/
theorem generateSummary_fallback_witness :
    generateSummaryWithOpenRouter none (fun _ => ChatOutcome.malformed) "hello" "t" =
      "hello".take 300 ++ "..." ∧
    ("hello" ≠ "" →
      generateSummaryWithOpenRouter none (fun _ => ChatOutcome.malformed) "hello" "t" ≠ "") :=
  generateSummary_fallback none (fun _ => ChatOutcome.malformed) "hello" "t" (Or.inl rfl)

-- ### C10: single-video job submission

lemma find?_key_map_set {k : String} {j : SingleVideoJob} :
    ∀ jobs : Jobs, (jobs.find? (fun p => p.1 = k)).isSome = true →
      ((jobs.map (fun p => if p.1 = k then (k, j) else p)).find?
        (fun p => p.1 = k)) = some (k, j) := by
  intro jobs
  induction jobs with
  | nil => intro h; simp at h
  | cons a rest ih =>
    intro h
    by_cases hk : a.1 = k
    · rw [List.map_cons, if_pos hk]
      exact List.find?_cons_of_pos _ (by simp)
    · rw [List.map_cons, if_neg hk]
      rw [List.find?_cons_of_neg _ (by simpa using hk)]
      apply ih
      rwa [List.find?_cons_of_neg _ (by simpa using hk)] at h

lemma find?_key_append_single {k : String} {x : String × SingleVideoJob} :
    ∀ jobs : Jobs, jobs.find? (fun p => p.1 = k) = none →
      (jobs ++ [x]).find? (fun p => p.1 = k) =
        [x].find? (fun p => p.1 = k) := by
  intro jobs
  induction jobs with
  | nil => intro _; rfl
  | cons a rest ih =>
    intro h
    by_cases hk : a.1 = k
    · rw [List.find?_cons_of_pos _ (by simpa using hk)] at h
      cases h
    · rw [List.cons_append, List.find?_cons_of_neg _ (by simpa using hk)]
      apply ih
      rwa [List.find?_cons_of_neg _ (by simpa using hk)] at h

lemma getJobStatus_setJob (jobs : Jobs) (k : String) (j : SingleVideoJob) :
    getJobStatus (setJob jobs k j) k = some j := by
  unfold getJobStatus setJob
  split
  · rename_i hsome
    rw [find?_key_map_set jobs hsome]
    rfl
  · rename_i hnone
    have hn : jobs.find? (fun p => p.1 = k) = none := by
      cases hfind : jobs.find? (fun p => p.1 = k) with
      | none => rfl
      | some x => rw [hfind] at hnone; simp at hnone
    rw [find?_key_append_single jobs hn]
    rw [List.find?_cons_of_pos _ (by simp)]
    rfl

/-- C10: when no video id can be extracted from the input,
`startSingleVideoJob` returns an empty job id with the error
`"Invalid YouTube URL"` and creates no job record (looking up the empty job
id still yields nothing); when an id is extracted it returns the fresh job
id whose initial status is pending. -/
theorem startSingleVideoJob_spec (parseURL : String → Option URLParts)
    (freshId input : String) (jobs : Jobs)
    (hempty : getJobStatus jobs "" = none) :
    (extractVideoId parseURL input = none →
      startSingleVideoJob parseURL freshId input jobs =
        (("", some "Invalid YouTube URL"), jobs) ∧
      getJobStatus (startSingleVideoJob parseURL freshId input jobs).2 "" = none) ∧
    (∀ vid, extractVideoId parseURL input = some vid →
      (startSingleVideoJob parseURL freshId input jobs).1 = (freshId, none) ∧
      getJobStatus (startSingleVideoJob parseURL freshId input jobs).2 freshId =
        some ⟨JobStatus.pending, none⟩) := by
  constructor
  · intro hnone
    unfold startSingleVideoJob
    rw [hnone]
    exact ⟨rfl, hempty⟩
  · intro vid hsome
    unfold startSingleVideoJob
    rw [hsome]
    exact ⟨rfl, getJobStatus_setJob jobs freshId _⟩

/-- Witness for C10: an unparsable input and a bare 11-character video id,
against an empty job map. -/
theorem startSingleVideoJob_spec_witness :
    (startSingleVideoJob (fun _ => none) "job-1" "???" [] =
        (("", some "Invalid YouTube URL"), []) ∧
      getJobStatus (startSingleVideoJob (fun _ => none) "job-1" "???" []).2 "" = none) ∧
    ((startSingleVideoJob (fun _ => none) "job-1" "dQw4w9WgXcQ" []).1 = ("job-1", none) ∧
      getJobStatus (startSingleVideoJob (fun _ => none) "job-1" "dQw4w9WgXcQ" []).2
        "job-1" = some ⟨JobStatus.pending, none⟩) :=
  ⟨(startSingleVideoJob_spec (fun _ => none) "job-1" "???" [] rfl).1 (by decide),
   (startSingleVideoJob_spec (fun _ => none) "job-1" "dQw4w9WgXcQ" [] rfl).2
     "dQw4w9WgXcQ" (by decide)⟩

-- ### C6: conflict behaviour of the two `videos` INSERTs

/-- C6 counterexample: the discovery-path INSERT (no conflict clause) raises
a unique violation when a row with the same external id already exists,
instead of being swallowed; only the pending-promotion INSERT swallows the
conflict. -/
theorem discovery_insert_conflict_counterexample :
    insertVideoStrict
        ⟨[], [⟨"dup00000001", "t1", "th1", "s1", "u1", "p1", "c1", none⟩], []⟩
        ⟨"dup00000001", "t2", "th2", "s2", "u2", "p2", "c2", none⟩ =
      Except.error DbError.uniqueViolation ∧
    insertVideoIdem
        ⟨[], [⟨"dup00000001", "t1", "th1", "s1", "u1", "p1", "c1", none⟩], []⟩
        ⟨"dup00000001", "t2", "th2", "s2", "u2", "p2", "c2", none⟩ =
      ⟨[], [⟨"dup00000001", "t1", "th1", "s1", "u1", "p1", "c1", none⟩], []⟩ :=
  ⟨rfl, rfl⟩

/-- C6 amended: the pending-promotion INSERT is idempotent on conflict (the
insert is swallowed, no duplicate row); the discovery-path INSERT has no
conflict clause and raises a unique violation, but it is guarded by the
preceding existence check on the same state, so the discovery loop itself
never surfaces a database error for a candidate. -/
theorem video_insert_conflict_semantics (st : DBState) (r : VideoRow)
    (env : Env) (chan : Channel) (v : ParsedVideo)
    (hconf : videoExists st r.video_id = true) :
    insertVideoIdem st r = st ∧
    insertVideoStrict st r = Except.error DbError.uniqueViolation ∧
    (processCandidate env chan st v).2 = none := by
  refine ⟨?_, ?_, processCandidate_snd_eq_none⟩
  · unfold insertVideoIdem
    rw [if_pos hconf]
  · unfold insertVideoStrict
    rw [if_pos hconf]

/-- Witness for C6 at a concrete conflicting state. -/
theorem video_insert_conflict_semantics_witness :
    insertVideoIdem
        ⟨[], [⟨"dup00000002", "t1", "th1", "s1", "u1", "p1", "c1", none⟩], []⟩
        ⟨"dup00000002", "t2", "th2", "s2", "u2", "p2", "c2", none⟩ =
      ⟨[], [⟨"dup00000002", "t1", "th1", "s1", "u1", "p1", "c1", none⟩], []⟩ ∧
    insertVideoStrict
        ⟨[], [⟨"dup00000002", "t1", "th1", "s1", "u1", "p1", "c1", none⟩], []⟩
        ⟨"dup00000002", "t2", "th2", "s2", "u2", "p2", "c2", none⟩ =
      Except.error DbError.uniqueViolation ∧
    (processCandidate
        ⟨none, fun _ => SearchOutcome.unreachable, fun _ => none, fun _ => none,
          fun t _ => t⟩
        ⟨"i", "c", "n", "u", "main"⟩
        ⟨[], [⟨"dup00000002", "t1", "th1", "s1", "u1", "p1", "c1", none⟩], []⟩
        ⟨"vid00000002", "t", "d", "th", "p", none⟩).2 = none :=
  video_insert_conflict_semantics
    ⟨[], [⟨"dup00000002", "t1", "th1", "s1", "u1", "p1", "c1", none⟩], []⟩
    ⟨"dup00000002", "t2", "th2", "s2", "u2", "p2", "c2", none⟩
    ⟨none, fun _ => SearchOutcome.unreachable, fun _ => none, fun _ => none,
      fun t _ => t⟩
    ⟨"i", "c", "n", "u", "main"⟩
    ⟨"vid00000002", "t", "d", "th", "p", none⟩
    (by decide)

-- ### C9: discovery failure handling and isolation

/-- C9 counterexample: with the API key present and the search endpoint
unreachable, `fetchLatestVideos` raises (the `fetch` rejection propagates:
there is no try/catch in the function) instead of returning the empty
list. -/
theorem fetchLatestVideos_unreachable_counterexample :
    fetchLatestVideos
        ⟨some "key", fun _ => SearchOutcome.unreachable, fun _ => none,
          fun _ => none, fun t _ => t⟩ "chan-1" 24 = Except.error () ∧
    fetchLatestVideos
        ⟨some "key", fun _ => SearchOutcome.unreachable, fun _ => none,
          fun _ => none, fun t _ => t⟩ "chan-1" 24 ≠ Except.ok [] := by
  refine ⟨rfl, fun h => ?_⟩
  have h' : (Except.error () : Except Unit (List ParsedVideo)) = Except.ok [] := h
  cases h'

/-- C9 amended: a missing API key, a non-success response, or a malformed
payload makes discovery return the empty list; an unreachable search API
makes `fetchLatestVideos` raise, and the per-channel handler catches the
error, so the channel yields no candidates and the remaining channels are
processed exactly as if that channel were absent. -/
theorem discovery_failure_isolation (env : Env) (cid key : String) (h24 : Nat)
    (st : DBState) (chan : Channel) (rest : List Channel) :
    (env.apiKey = none → fetchLatestVideos env cid h24 = Except.ok []) ∧
    (∀ s, env.apiKey = some key → env.search cid = SearchOutcome.httpError s →
      fetchLatestVideos env cid h24 = Except.ok []) ∧
    (env.apiKey = some key → env.search cid = SearchOutcome.payload none →
      fetchLatestVideos env cid h24 = Except.ok []) ∧
    (env.search chan.channel_id = SearchOutcome.unreachable →
      processChannel env st chan = st ∧
      processChannels env st (chan :: rest) = processChannels env st rest) := by
  refine ⟨?_, ?_, ?_, ?_⟩
  · intro h
    unfold fetchLatestVideos
    rw [h]
  · intro s hk hs
    unfold fetchLatestVideos
    rw [hk, hs]
  · intro hk hs
    unfold fetchLatestVideos
    rw [hk, hs]
  · intro hs
    have hch : processChannel env st chan = st := by
      unfold processChannel fetchLatestVideos
      cases hk : env.apiKey with
      | none => rfl
      | some k => rw [hs]
    refine ⟨hch, ?_⟩
    rw [show processChannels env st (chan :: rest) =
      processChannels env (processChannel env st chan) rest from rfl, hch]

/-- Witness for C9 at concrete oracle values for each failure mode. -/
theorem discovery_failure_isolation_witness :
    fetchLatestVideos
        ⟨none, fun _ => SearchOutcome.unreachable, fun _ => none, fun _ => none,
          fun t _ => t⟩ "c1" 24 = Except.ok [] ∧
    fetchLatestVideos
        ⟨some "k", fun _ => SearchOutcome.httpError 403, fun _ => none,
          fun _ => none, fun t _ => t⟩ "c1" 24 = Except.ok [] ∧
    fetchLatestVideos
        ⟨some "k", fun _ => SearchOutcome.payload none, fun _ => none,
          fun _ => none, fun t _ => t⟩ "c1" 24 = Except.ok [] ∧
    (processChannel
        ⟨some "k", fun _ => SearchOutcome.unreachable, fun _ => none,
          fun _ => none, fun t _ => t⟩ ⟨[], [], []⟩ ⟨"i", "c1", "n", "u", "main"⟩ =
      ⟨[], [], []⟩ ∧
    processChannels
        ⟨some "k", fun _ => SearchOutcome.unreachable, fun _ => none,
          fun _ => none, fun t _ => t⟩ ⟨[], [], []⟩ [⟨"i", "c1", "n", "u", "main"⟩] =
      processChannels
        ⟨some "k", fun _ => SearchOutcome.unreachable, fun _ => none,
          fun _ => none, fun t _ => t⟩ ⟨[], [], []⟩ []) :=
  ⟨(discovery_failure_isolation
      ⟨none, fun _ => SearchOutcome.unreachable, fun _ => none, fun _ => none,
        fun t _ => t⟩ "c1" "k" 24 ⟨[], [], []⟩ ⟨"i", "c1", "n", "u", "main"⟩ []).1 rfl,
   (discovery_failure_isolation
      ⟨some "k", fun _ => SearchOutcome.httpError 403, fun _ => none,
        fun _ => none, fun t _ => t⟩ "c1" "k" 24 ⟨[], [], []⟩
      ⟨"i", "c1", "n", "u", "main"⟩ []).2.1 403 rfl rfl,
   (discovery_failure_isolation
      ⟨some "k", fun _ => SearchOutcome.payload none, fun _ => none,
        fun _ => none, fun t _ => t⟩ "c1" "k" 24 ⟨[], [], []⟩
      ⟨"i", "c1", "n", "u", "main"⟩ []).2.2.1 rfl rfl,
   (discovery_failure_isolation
      ⟨some "k", fun _ => SearchOutcome.unreachable, fun _ => none,
        fun _ => none, fun t _ => t⟩ "c1" "k" 24 ⟨[], [], []⟩
      ⟨"i", "c1", "n", "u", "main"⟩ []).2.2.2 rfl⟩

-- ### C2: the 100-character transcript threshold

/-- C2: a transcript is treated as usable iff its length is at least 100
characters; a shorter transcript takes the pending-queue path exactly like
an extraction failure and a transcript of at least 100 characters is
summarized and persisted as a completed Video — in the discovery loop and
in the pending retry pass alike. -/
theorem transcript_usability_threshold :
    (∀ t : Option String, unusableTranscript t = false ↔
      ∃ s, t = some s ∧ 100 ≤ s.length) ∧
    (∀ (env envN : Env) (chan : Channel) (st : DBState) (v : ParsedVideo)
      (s : String),
      env.transcriptOf v.id = some s → s.length < 100 →
      envN.transcriptOf v.id = none →
      processCandidate env chan st v = processCandidate envN chan st v) ∧
    (∀ (env : Env) (chan : Channel) (st : DBState) (v : ParsedVideo)
      (s : String),
      env.transcriptOf v.id = some s → 100 ≤ s.length →
      videoExists st v.id = false → pendingExists st v.id = false →
      (processCandidate env chan st v).1.videos =
        st.videos ++ [videoRowOfCandidate chan v (env.summarize s v.title)] ∧
      (processCandidate env chan st v).1.pending = st.pending) ∧
    (∀ (env envN : Env) (st : DBState) (row : PendingRow) (s : String),
      env.transcriptOf row.video_id = some s → s.length < 100 →
      envN.transcriptOf row.video_id = none →
      processPendingRow env st row = processPendingRow envN st row) ∧
    (∀ (env : Env) (st : DBState) (row : PendingRow) (s : String),
      env.transcriptOf row.video_id = some s → 100 ≤ s.length →
      processPendingRow env st row =
        deletePending (insertVideoIdem st
          ⟨row.video_id, row.title, row.thumbnail, env.summarize s row.title,
            row.video_url, row.published_at, row.channel_id,
            row.duration_seconds⟩) row.video_id) := by
  refine ⟨?_, ?_, ?_, ?_, ?_⟩
  · intro t
    cases t with
    | none => simp [unusableTranscript]
    | some s => simp [unusableTranscript, not_lt]
  · intro env envN chan st v s h1 hlen h2
    by_cases hex : (videoExists st v.id || pendingExists st v.id) = true
    · have hor := Bool.or_eq_true _ _ |>.mp hex
      rw [processCandidate_skip hor, processCandidate_skip hor]
    · rw [Bool.or_eq_true, not_or] at hex
      have hv : videoExists st v.id = false := by
        cases hb : videoExists st v.id
        · rfl
        · exact absurd hb hex.1
      have hp : pendingExists st v.id = false := by
        cases hb : pendingExists st v.id
        · rfl
        · exact absurd hb hex.2
      rw [processCandidate_unusable (by rw [h1]; simpa [unusableTranscript]) hv hp,
        processCandidate_unusable (by rw [h2]; rfl) hv hp]
  · intro env chan st v s h1 hle hv hp
    have hres : processCandidate env chan st v =
        ({ st with videos :=
          st.videos ++ [videoRowOfCandidate chan v (env.summarize s v.title)] },
          none) := by
      unfold processCandidate
      rw [if_neg (by rw [hv, hp]; simp)]
      rw [h1]
      dsimp only
      rw [if_neg (not_lt.mpr hle)]
      unfold insertVideoStrict
      rw [if_neg (by
        rw [show (videoRowOfCandidate chan v (env.summarize s v.title)).video_id
          = v.id from rfl, hv]
        simp)]
    rw [hres]
    exact ⟨rfl, rfl⟩
  · intro env envN st row s h1 hlen h2
    rw [processPendingRow_unusable (by rw [h1]; simpa [unusableTranscript]),
      processPendingRow_unusable (by rw [h2]; rfl)]
  · intro env st row s h1 hle
    unfold processPendingRow
    rw [h1]
    dsimp only
    rw [if_neg (not_lt.mpr hle)]

/-- Witness for C2: a 99-character transcript behaves like extraction
failure, a 100-character transcript is persisted, in both loops. -/
theorem transcript_usability_threshold_witness :
    (unusableTranscript (some (String.mk (List.replicate 100 'a'))) = false ↔
      ∃ s, some (String.mk (List.replicate 100 'a')) = some s ∧ 100 ≤ s.length) ∧
    processCandidate
        ⟨none, fun _ => SearchOutcome.unreachable, fun _ => none,
          fun _ => some (String.mk (List.replicate 99 'a')), fun t _ => t⟩
        ⟨"i", "c", "n", "u", "main"⟩ ⟨[], [], []⟩ ⟨"vid00000003", "T", "D", "th", "P", none⟩ =
      processCandidate
        ⟨none, fun _ => SearchOutcome.unreachable, fun _ => none,
          fun _ => none, fun t _ => t⟩
        ⟨"i", "c", "n", "u", "main"⟩ ⟨[], [], []⟩ ⟨"vid00000003", "T", "D", "th", "P", none⟩ ∧
    (processCandidate
        ⟨none, fun _ => SearchOutcome.unreachable, fun _ => none,
          fun _ => some (String.mk (List.replicate 100 'a')), fun t _ => t⟩
        ⟨"i", "c", "n", "u", "main"⟩ ⟨[], [], []⟩
        ⟨"vid00000003", "T", "D", "th", "P", none⟩).1.videos =
      [] ++ [videoRowOfCandidate ⟨"i", "c", "n", "u", "main"⟩
        ⟨"vid00000003", "T", "D", "th", "P", none⟩
        (String.mk (List.replicate 100 'a'))] ∧
    processPendingRow
        ⟨none, fun _ => SearchOutcome.unreachable, fun _ => none,
          fun _ => some (String.mk (List.replicate 99 'a')), fun t _ => t⟩
        ⟨[], [], []⟩ ⟨"vid00000003", "T", "th", "D", "u", "P", "i", none, 0⟩ =
      processPendingRow
        ⟨none, fun _ => SearchOutcome.unreachable, fun _ => none,
          fun _ => none, fun t _ => t⟩
        ⟨[], [], []⟩ ⟨"vid00000003", "T", "th", "D", "u", "P", "i", none, 0⟩ := by
  refine ⟨transcript_usability_threshold.1 _, ?_, ?_, ?_⟩
  · exact transcript_usability_threshold.2.1
      ⟨none, fun _ => SearchOutcome.unreachable, fun _ => none,
        fun _ => some (String.mk (List.replicate 99 'a')), fun t _ => t⟩
      ⟨none, fun _ => SearchOutcome.unreachable, fun _ => none,
        fun _ => none, fun t _ => t⟩
      ⟨"i", "c", "n", "u", "main"⟩ ⟨[], [], []⟩
      ⟨"vid00000003", "T", "D", "th", "P", none⟩
      (String.mk (List.replicate 99 'a')) rfl (by decide) rfl
  · exact (transcript_usability_threshold.2.2.1
      ⟨none, fun _ => SearchOutcome.unreachable, fun _ => none,
        fun _ => some (String.mk (List.replicate 100 'a')), fun t _ => t⟩
      ⟨"i", "c", "n", "u", "main"⟩ ⟨[], [], []⟩
      ⟨"vid00000003", "T", "D", "th", "P", none⟩
      (String.mk (List.replicate 100 'a')) rfl (by decide) rfl rfl).1
  · exact transcript_usability_threshold.2.2.2.1
      ⟨none, fun _ => SearchOutcome.unreachable, fun _ => none,
        fun _ => some (String.mk (List.replicate 99 'a')), fun t _ => t⟩
      ⟨none, fun _ => SearchOutcome.unreachable, fun _ => none,
        fun _ => none, fun t _ => t⟩
      ⟨[], [], []⟩ ⟨"vid00000003", "T", "th", "D", "u", "P", "i", none, 0⟩
      (String.mk (List.replicate 99 'a')) rfl (by decide) rfl

-- ### C3: idempotence across two sequential runs

/-- C3: starting from a state satisfying the unique-id constraints, two
successive orchestrator runs never produce two Video rows or two
PendingVideo rows for any external id, and a candidate whose id already
exists in either table is skipped (state untouched, no error) before
transcript extraction. -/
theorem orchestrator_idempotent (env1 env2 : Env) (f1 f2 : String)
    (st : DBState) (hg : Good st) :
    (∀ v : String,
      (videoIds (fetchAndSummarizeVideos env2 f2
        (fetchAndSummarizeVideos env1 f1 st))).count v ≤ 1 ∧
      (pendingIds (fetchAndSummarizeVideos env2 f2
        (fetchAndSummarizeVideos env1 f1 st))).count v ≤ 1) ∧
    (∀ (env : Env) (chan : Channel) (st' : DBState) (v : ParsedVideo),
      videoExists st' v.id = true ∨ pendingExists st' v.id = true →
      processCandidate env chan st' v = (st', none)) := by
  have hg2 := @good_fetchAndSummarizeVideos env2 f2 (fetchAndSummarizeVideos env1 f1 st)
    (@good_fetchAndSummarizeVideos env1 f1 st hg)
  refine ⟨fun v => ⟨?_, ?_⟩, fun env chan st' v h => processCandidate_skip h⟩
  · exact List.nodup_iff_count_le_one.mp hg2.1.1 v
  · exact List.nodup_iff_count_le_one.mp hg2.1.2 v

/-- Witness for C3: two runs from the empty database, and a skipped
duplicate candidate. -/
theorem orchestrator_idempotent_witness :
    ((videoIds (fetchAndSummarizeVideos
        ⟨none, fun _ => SearchOutcome.unreachable, fun _ => none, fun _ => none,
          fun t _ => t⟩ "main"
        (fetchAndSummarizeVideos
          ⟨none, fun _ => SearchOutcome.unreachable, fun _ => none, fun _ => none,
            fun t _ => t⟩ "main" ⟨[], [], []⟩))).count "x" ≤ 1 ∧
      (pendingIds (fetchAndSummarizeVideos
        ⟨none, fun _ => SearchOutcome.unreachable, fun _ => none, fun _ => none,
          fun t _ => t⟩ "main"
        (fetchAndSummarizeVideos
          ⟨none, fun _ => SearchOutcome.unreachable, fun _ => none, fun _ => none,
            fun t _ => t⟩ "main" ⟨[], [], []⟩))).count "x" ≤ 1) ∧
    processCandidate
        ⟨none, fun _ => SearchOutcome.unreachable, fun _ => none, fun _ => none,
          fun t _ => t⟩
        ⟨"i", "c", "n", "u", "main"⟩
        ⟨[], [⟨"vid00000004", "t", "th", "s", "u", "p", "c", none⟩], []⟩
        ⟨"vid00000004", "T", "D", "th", "P", none⟩ =
      (⟨[], [⟨"vid00000004", "t", "th", "s", "u", "p", "c", none⟩], []⟩, none) := by
  have h := orchestrator_idempotent
    ⟨none, fun _ => SearchOutcome.unreachable, fun _ => none, fun _ => none,
      fun t _ => t⟩
    ⟨none, fun _ => SearchOutcome.unreachable, fun _ => none, fun _ => none,
      fun t _ => t⟩
    "main" "main" ⟨[], [], []⟩
    ⟨⟨List.nodup_nil, List.nodup_nil⟩, fun id hid => absurd hid (List.not_mem_nil id)⟩
  exact ⟨h.1 "x", h.2
    ⟨none, fun _ => SearchOutcome.unreachable, fun _ => none, fun _ => none,
      fun t _ => t⟩
    ⟨"i", "c", "n", "u", "main"⟩
    ⟨[], [⟨"vid00000004", "t", "th", "s", "u", "p", "c", none⟩], []⟩
    ⟨"vid00000004", "T", "D", "th", "P", none⟩ (Or.inl (by decide))⟩

-- ### C4: mutual exclusion of the two tables

/-- C4 counterexample: from a state where the id is only in the pending
queue, the run that promotes it reaches an intermediate state (right after
the `videos` INSERT of the promotion, before the pending DELETE) in which
the id is present in both tables; the end-of-run state is clean again. -/
theorem mutual_exclusion_mid_promotion_counterexample :
    ("vid00000005" ∈ pendingIds ⟨[⟨"cid4", "ch4", "n", "u", "main"⟩], [],
        [⟨"vid00000005", "T", "th", "D", "u", "P", "cid4", none, 0⟩]⟩ ∧
      "vid00000005" ∉ videoIds ⟨[⟨"cid4", "ch4", "n", "u", "main"⟩], [],
        [⟨"vid00000005", "T", "th", "D", "u", "P", "cid4", none, 0⟩]⟩) ∧
    (∃ s, s ∈ runStates
        ⟨none, fun _ => SearchOutcome.unreachable, fun _ => none,
          fun _ => some (String.mk (List.replicate 100 'a')), fun t _ => t⟩ "main"
        ⟨[⟨"cid4", "ch4", "n", "u", "main"⟩], [],
          [⟨"vid00000005", "T", "th", "D", "u", "P", "cid4", none, 0⟩]⟩ ∧
      "vid00000005" ∈ videoIds s ∧ "vid00000005" ∈ pendingIds s) ∧
    "vid00000005" ∉ pendingIds (fetchAndSummarizeVideos
        ⟨none, fun _ => SearchOutcome.unreachable, fun _ => none,
          fun _ => some (String.mk (List.replicate 100 'a')), fun t _ => t⟩ "main"
        ⟨[⟨"cid4", "ch4", "n", "u", "main"⟩], [],
          [⟨"vid00000005", "T", "th", "D", "u", "P", "cid4", none, 0⟩]⟩) := by
  refine ⟨by decide,
    ⟨⟨[⟨"cid4", "ch4", "n", "u", "main"⟩],
      [⟨"vid00000005", "T", "th", String.mk (List.replicate 100 'a'), "u", "P",
        "cid4", none⟩],
      [⟨"vid00000005", "T", "th", "D", "u", "P", "cid4", none, 0⟩]⟩,
      by decide, by decide, by decide⟩,
    by decide⟩

/-- C4 amended: the mutual-exclusion invariant holds at the start and end of
every run (a run maps Good states to Good states), and the step trace ends
in the state the run returns; but it does not hold at every intermediate
step — during pending promotion the id is briefly in both tables, as the
counterexample shows. -/
theorem mutual_exclusion_at_run_boundaries (env : Env) (f : String)
    (st : DBState) (hg : Good st) :
    MutEx (fetchAndSummarizeVideos env f st) ∧
    Dedup (fetchAndSummarizeVideos env f st) ∧
    lastState (runStates env f st) st = fetchAndSummarizeVideos env f st :=
  ⟨(good_fetchAndSummarizeVideos hg).2, (good_fetchAndSummarizeVideos hg).1,
    lastState_runStates env f st⟩

/-- Witness for C4 from the empty database. -/
theorem mutual_exclusion_at_run_boundaries_witness :
    MutEx (fetchAndSummarizeVideos
        ⟨none, fun _ => SearchOutcome.unreachable, fun _ => none, fun _ => none,
          fun t _ => t⟩ "main" ⟨[], [], []⟩) ∧
    Dedup (fetchAndSummarizeVideos
        ⟨none, fun _ => SearchOutcome.unreachable, fun _ => none, fun _ => none,
          fun t _ => t⟩ "main" ⟨[], [], []⟩) ∧
    lastState (runStates
        ⟨none, fun _ => SearchOutcome.unreachable, fun _ => none, fun _ => none,
          fun t _ => t⟩ "main" ⟨[], [], []⟩) ⟨[], [], []⟩ =
      fetchAndSummarizeVideos
        ⟨none, fun _ => SearchOutcome.unreachable, fun _ => none, fun _ => none,
          fun t _ => t⟩ "main" ⟨[], [], []⟩ :=
  mutual_exclusion_at_run_boundaries
    ⟨none, fun _ => SearchOutcome.unreachable, fun _ => none, fun _ => none,
      fun t _ => t⟩ "main" ⟨[], [], []⟩
    ⟨⟨List.nodup_nil, List.nodup_nil⟩, fun id hid => absurd hid (List.not_mem_nil id)⟩

-- ### C5: when the pending pass runs

/-- C5 counterexample: when zero channels match the requested category the
run returns before the pending pass, leaving a non-empty pending queue
untouched even though the pass would have changed it. -/
theorem pending_pass_skipped_counterexample :
    fetchAndSummarizeVideos
        ⟨none, fun _ => SearchOutcome.unreachable, fun _ => none, fun _ => none,
          fun t _ => t⟩ "main"
        ⟨[⟨"cid5", "ch5", "n", "u", "tech"⟩], [],
          [⟨"vid00000006", "T", "th", "D", "u", "P", "cid5", none, 1⟩]⟩ =
      ⟨[⟨"cid5", "ch5", "n", "u", "tech"⟩], [],
        [⟨"vid00000006", "T", "th", "D", "u", "P", "cid5", none, 1⟩]⟩ ∧
    (⟨[⟨"cid5", "ch5", "n", "u", "tech"⟩], [],
      [⟨"vid00000006", "T", "th", "D", "u", "P", "cid5", none, 1⟩]⟩ : DBState).pending ≠ [] ∧
    processPendingVideos
        ⟨none, fun _ => SearchOutcome.unreachable, fun _ => none, fun _ => none,
          fun t _ => t⟩
        ⟨[⟨"cid5", "ch5", "n", "u", "tech"⟩], [],
          [⟨"vid00000006", "T", "th", "D", "u", "P", "cid5", none, 1⟩]⟩ ≠
      ⟨[⟨"cid5", "ch5", "n", "u", "tech"⟩], [],
        [⟨"vid00000006", "T", "th", "D", "u", "P", "cid5", none, 1⟩]⟩ := by
  refine ⟨by decide, by decide, by decide⟩

/-- C5 amended: the pending pass runs exactly once per invocation, after the
channel loop, over the entire queue snapshot across all channels — but only
when at least one channel matches the category filter; with zero matching
channels the run returns early and the queue is not processed.  Every row of
the snapshot is handled: a row with an unusable transcript and an exhausted
retry budget is deleted, and a row with a usable transcript is promoted to
`videos` and removed from the queue, whatever channel it belongs to. -/
theorem pending_pass_conditional (env : Env) (f : String) (st : DBState) :
    (st.channels.filter (fun c =>
        decide (lowerString c.category = lowerString f)) = [] →
      fetchAndSummarizeVideos env f st = st) ∧
    (st.channels.filter (fun c =>
        decide (lowerString c.category = lowerString f)) ≠ [] →
      fetchAndSummarizeVideos env f st =
        processPendingVideos env (processChannels env st
          (st.channels.filter (fun c =>
            decide (lowerString c.category = lowerString f))))) ∧
    (∀ row ∈ st.pending,
      unusableTranscript (env.transcriptOf row.video_id) = true →
      1 ≤ row.retry_count →
      row.video_id ∉ pendingIds (processPendingVideos env st)) ∧
    (∀ row ∈ st.pending,
      unusableTranscript (env.transcriptOf row.video_id) = false →
      row.video_id ∈ videoIds (processPendingVideos env st) ∧
      row.video_id ∉ pendingIds (processPendingVideos env st)) := by
  refine ⟨?_, ?_, ?_, ?_⟩
  · intro h
    unfold fetchAndSummarizeVideos
    dsimp only
    rw [h]
    rfl
  · intro h
    unfold fetchAndSummarizeVideos
    dsimp only
    rw [if_neg (by
      intro hemp
      exact h (List.isEmpty_iff.mp hemp))]
  · intro row hrow hu hr
    exact processPendingList_discards hu hr st.pending st hrow
  · intro row hrow hu
    exact processPendingList_promotes hu st.pending st hrow

/-- Witness for C5: a non-matching category skips the pass; a matching one
runs it, deleting an exhausted row and promoting a row that now has a
transcript. -/
theorem pending_pass_conditional_witness :
    fetchAndSummarizeVideos
        ⟨none, fun _ => SearchOutcome.unreachable, fun _ => none, fun _ => none,
          fun t _ => t⟩ "main" ⟨[⟨"cid5", "ch5", "n", "u", "tech"⟩], [], []⟩ =
      ⟨[⟨"cid5", "ch5", "n", "u", "tech"⟩], [], []⟩ ∧
    fetchAndSummarizeVideos
        ⟨none, fun _ => SearchOutcome.unreachable, fun _ => none,
          fun vid => if vid = "vid00000008" then
            some (String.mk (List.replicate 100 'a')) else none, fun t _ => t⟩
        "main"
        ⟨[⟨"cid", "ch", "n", "u", "main"⟩], [],
          [⟨"vid00000007", "A", "th", "D", "u", "P", "cid", none, 1⟩,
           ⟨"vid00000008", "B", "th", "D", "u", "P", "cid", none, 0⟩]⟩ =
      processPendingVideos
        ⟨none, fun _ => SearchOutcome.unreachable, fun _ => none,
          fun vid => if vid = "vid00000008" then
            some (String.mk (List.replicate 100 'a')) else none, fun t _ => t⟩
        (processChannels
          ⟨none, fun _ => SearchOutcome.unreachable, fun _ => none,
            fun vid => if vid = "vid00000008" then
              some (String.mk (List.replicate 100 'a')) else none, fun t _ => t⟩
          ⟨[⟨"cid", "ch", "n", "u", "main"⟩], [],
            [⟨"vid00000007", "A", "th", "D", "u", "P", "cid", none, 1⟩,
             ⟨"vid00000008", "B", "th", "D", "u", "P", "cid", none, 0⟩]⟩
          ((⟨[⟨"cid", "ch", "n", "u", "main"⟩], [],
            [⟨"vid00000007", "A", "th", "D", "u", "P", "cid", none, 1⟩,
             ⟨"vid00000008", "B", "th", "D", "u", "P", "cid", none, 0⟩]⟩ :
              DBState).channels.filter (fun c =>
            decide (lowerString c.category = lowerString "main")))) ∧
    "vid00000007" ∉ pendingIds (processPendingVideos
        ⟨none, fun _ => SearchOutcome.unreachable, fun _ => none,
          fun vid => if vid = "vid00000008" then
            some (String.mk (List.replicate 100 'a')) else none, fun t _ => t⟩
        ⟨[⟨"cid", "ch", "n", "u", "main"⟩], [],
          [⟨"vid00000007", "A", "th", "D", "u", "P", "cid", none, 1⟩,
           ⟨"vid00000008", "B", "th", "D", "u", "P", "cid", none, 0⟩]⟩) ∧
    ("vid00000008" ∈ videoIds (processPendingVideos
        ⟨none, fun _ => SearchOutcome.unreachable, fun _ => none,
          fun vid => if vid = "vid00000008" then
            some (String.mk (List.replicate 100 'a')) else none, fun t _ => t⟩
        ⟨[⟨"cid", "ch", "n", "u", "main"⟩], [],
          [⟨"vid00000007", "A", "th", "D", "u", "P", "cid", none, 1⟩,
           ⟨"vid00000008", "B", "th", "D", "u", "P", "cid", none, 0⟩]⟩) ∧
      "vid00000008" ∉ pendingIds (processPendingVideos
        ⟨none, fun _ => SearchOutcome.unreachable, fun _ => none,
          fun vid => if vid = "vid00000008" then
            some (String.mk (List.replicate 100 'a')) else none, fun t _ => t⟩
        ⟨[⟨"cid", "ch", "n", "u", "main"⟩], [],
          [⟨"vid00000007", "A", "th", "D", "u", "P", "cid", none, 1⟩,
           ⟨"vid00000008", "B", "th", "D", "u", "P", "cid", none, 0⟩]⟩)) := by
  refine ⟨?_, ?_, ?_, ?_⟩
  · exact (pending_pass_conditional
      ⟨none, fun _ => SearchOutcome.unreachable, fun _ => none, fun _ => none,
        fun t _ => t⟩ "main" ⟨[⟨"cid5", "ch5", "n", "u", "tech"⟩], [], []⟩).1
      (by decide)
  · exact (pending_pass_conditional
      ⟨none, fun _ => SearchOutcome.unreachable, fun _ => none,
        fun vid => if vid = "vid00000008" then
          some (String.mk (List.replicate 100 'a')) else none, fun t _ => t⟩
      "main"
      ⟨[⟨"cid", "ch", "n", "u", "main"⟩], [],
        [⟨"vid00000007", "A", "th", "D", "u", "P", "cid", none, 1⟩,
         ⟨"vid00000008", "B", "th", "D", "u", "P", "cid", none, 0⟩]⟩).2.1
      (by decide)
  · exact (pending_pass_conditional
      ⟨none, fun _ => SearchOutcome.unreachable, fun _ => none,
        fun vid => if vid = "vid00000008" then
          some (String.mk (List.replicate 100 'a')) else none, fun t _ => t⟩
      "main"
      ⟨[⟨"cid", "ch", "n", "u", "main"⟩], [],
        [⟨"vid00000007", "A", "th", "D", "u", "P", "cid", none, 1⟩,
         ⟨"vid00000008", "B", "th", "D", "u", "P", "cid", none, 0⟩]⟩).2.2.1
      ⟨"vid00000007", "A", "th", "D", "u", "P", "cid", none, 1⟩
      (by decide) (by decide) (by decide)
  · exact (pending_pass_conditional
      ⟨none, fun _ => SearchOutcome.unreachable, fun _ => none,
        fun vid => if vid = "vid00000008" then
          some (String.mk (List.replicate 100 'a')) else none, fun t _ => t⟩
      "main"
      ⟨[⟨"cid", "ch", "n", "u", "main"⟩], [],
        [⟨"vid00000007", "A", "th", "D", "u", "P", "cid", none, 1⟩,
         ⟨"vid00000008", "B", "th", "D", "u", "P", "cid", none, 0⟩]⟩).2.2.2
      ⟨"vid00000008", "B", "th", "D", "u", "P", "cid", none, 0⟩
      (by decide) (by decide)

-- ### C1: lifecycle of a video whose transcript never becomes usable

/-- C1 counterexample: the pending pass runs at the end of the same
invocation that discovers the video, so after the discovering run the
pending row already has `retry_count = 1` (not 0), and the row is deleted
during the second run (not the third). -/
theorem pending_retry_counterexample :
    ((fetchAndSummarizeVideos
        ⟨some "k", fun _ => SearchOutcome.payload
            (some [⟨"vid00000009", "T", "D", "th", "2024-01-01"⟩]),
          fun _ => none,
          fun _ => some "0123456789012345678901234567890123456789",
          fun t _ => t⟩ "main"
        ⟨[⟨"cidA", "chA", "Chan", "url", "main"⟩], [], []⟩).pending.map
      (fun r => r.retry_count) = [1]) ∧
    ¬((fetchAndSummarizeVideos
        ⟨some "k", fun _ => SearchOutcome.payload
            (some [⟨"vid00000009", "T", "D", "th", "2024-01-01"⟩]),
          fun _ => none,
          fun _ => some "0123456789012345678901234567890123456789",
          fun t _ => t⟩ "main"
        ⟨[⟨"cidA", "chA", "Chan", "url", "main"⟩], [], []⟩).pending.map
      (fun r => r.retry_count) = [0]) ∧
    pendingIds (fetchAndSummarizeVideos
        ⟨some "k", fun _ => SearchOutcome.payload
            (some [⟨"vid00000009", "T", "D", "th", "2024-01-01"⟩]),
          fun _ => none,
          fun _ => some "0123456789012345678901234567890123456789",
          fun t _ => t⟩ "main"
        (fetchAndSummarizeVideos
          ⟨some "k", fun _ => SearchOutcome.payload
              (some [⟨"vid00000009", "T", "D", "th", "2024-01-01"⟩]),
            fun _ => none,
            fun _ => some "0123456789012345678901234567890123456789",
            fun t _ => t⟩ "main"
          ⟨[⟨"cidA", "chA", "Chan", "url", "main"⟩], [], []⟩)) = [] ∧
    videoIds (fetchAndSummarizeVideos
        ⟨some "k", fun _ => SearchOutcome.payload
            (some [⟨"vid00000009", "T", "D", "th", "2024-01-01"⟩]),
          fun _ => none,
          fun _ => some "0123456789012345678901234567890123456789",
          fun t _ => t⟩ "main"
        (fetchAndSummarizeVideos
          ⟨some "k", fun _ => SearchOutcome.payload
              (some [⟨"vid00000009", "T", "D", "th", "2024-01-01"⟩]),
            fun _ => none,
            fun _ => some "0123456789012345678901234567890123456789",
            fun t _ => t⟩ "main"
          ⟨[⟨"cidA", "chA", "Chan", "url", "main"⟩], [], []⟩)) = [] := by
  refine ⟨by decide, by decide, by decide, by decide⟩

/-- C1 amended: for a freshly discovered video whose transcript stays
unusable, the discovering run leaves a pending row that already carries
`retry_count = 1` (the unconditional end-of-run pending pass performs the
first failed retry within the same invocation); the next run deletes the
row (its second failed retry); and no Video row is ever created while the
transcript stays unusable.  Deletion thus happens exactly on the second
consecutive failed retry attempt of the pending pass, never on the first —
but the runs are numbered one earlier than the claim states. -/
theorem pending_retry_lifecycle (env1 env2 : Env) (chan : Channel)
    (item : SearchItem) (f key1 key2 : String)
    (hcat : lowerString chan.category = lowerString f)
    (hk1 : env1.apiKey = some key1)
    (hs1 : env1.search chan.channel_id = SearchOutcome.payload (some [item]))
    (hu1 : unusableTranscript (env1.transcriptOf item.videoId) = true)
    (hk2 : env2.apiKey = some key2)
    (hs2 : env2.search chan.channel_id = SearchOutcome.payload (some [item]))
    (hu2 : unusableTranscript (env2.transcriptOf item.videoId) = true) :
    fetchAndSummarizeVideos env1 f ⟨[chan], [], []⟩ =
      ⟨[chan], [],
        [{ pendingRowOfVideo chan
            ⟨item.videoId, item.title, item.description, item.thumbnail,
              item.publishedAt, env1.durationOf item.videoId⟩ with
          retry_count := 1 }]⟩ ∧
    fetchAndSummarizeVideos env2 f
        (fetchAndSummarizeVideos env1 f ⟨[chan], [], []⟩) = ⟨[chan], [], []⟩ ∧
    (∀ (env : Env) (f' : String) (st : DBState),
      unusableTranscript (env.transcriptOf item.videoId) = true →
      item.videoId ∉ videoIds st →
      item.videoId ∉ videoIds (fetchAndSummarizeVideos env f' st)) := by
  have hfilter : List.filter
      (fun c => decide (lowerString c.category = lowerString f)) [chan] = [chan] := by
    simp [List.filter, hcat]
  have hA1 : fetchLatestVideos env1 chan.channel_id 24 =
      Except.ok [⟨item.videoId, item.title, item.description, item.thumbnail,
        item.publishedAt, env1.durationOf item.videoId⟩] := by
    unfold fetchLatestVideos
    rw [hk1, hs1]
    rfl
  have hA2 : fetchLatestVideos env2 chan.channel_id 24 =
      Except.ok [⟨item.videoId, item.title, item.description, item.thumbnail,
        item.publishedAt, env2.durationOf item.videoId⟩] := by
    unfold fetchLatestVideos
    rw [hk2, hs2]
    rfl
  have hrun1 : fetchAndSummarizeVideos env1 f ⟨[chan], [], []⟩ =
      ⟨[chan], [],
        [{ pendingRowOfVideo chan
            ⟨item.videoId, item.title, item.description, item.thumbnail,
              item.publishedAt, env1.durationOf item.videoId⟩ with
          retry_count := 1 }]⟩ := by
    unfold fetchAndSummarizeVideos
    dsimp only
    rw [hfilter]
    rw [if_neg (by simp)]
    have hchan : processChannels env1 ⟨[chan], [], []⟩ [chan] =
        ⟨[chan], [],
          [pendingRowOfVideo chan
            ⟨item.videoId, item.title, item.description, item.thumbnail,
              item.publishedAt, env1.durationOf item.videoId⟩]⟩ := by
      rw [show processChannels env1 ⟨[chan], [], []⟩ [chan] =
        processChannels env1 (processChannel env1 ⟨[chan], [], []⟩ chan) [] from rfl]
      have hch : processChannel env1 ⟨[chan], [], []⟩ chan =
          ⟨[chan], [],
            [pendingRowOfVideo chan
              ⟨item.videoId, item.title, item.description, item.thumbnail,
                item.publishedAt, env1.durationOf item.videoId⟩]⟩ := by
        unfold processChannel
        rw [hA1]
        dsimp only
        rw [show processChannelCandidates env1 chan ⟨[chan], [], []⟩
            [⟨item.videoId, item.title, item.description, item.thumbnail,
              item.publishedAt, env1.durationOf item.videoId⟩] =
          (match processCandidate env1 chan ⟨[chan], [], []⟩
            ⟨item.videoId, item.title, item.description, item.thumbnail,
              item.publishedAt, env1.durationOf item.videoId⟩ with
           | (st', some _) => st'
           | (st', none) => processChannelCandidates env1 chan st' []) from rfl]
        rw [@processCandidate_unusable env1 chan ⟨[chan], [], []⟩
          ⟨item.videoId, item.title, item.description, item.thumbnail,
            item.publishedAt, env1.durationOf item.videoId⟩ hu1 rfl rfl]
        rfl
      rw [hch]
      rfl
    rw [hchan]
    unfold processPendingVideos
    rw [show processPendingList env1
        ⟨[chan], [],
          [pendingRowOfVideo chan
            ⟨item.videoId, item.title, item.description, item.thumbnail,
              item.publishedAt, env1.durationOf item.videoId⟩]⟩
        [pendingRowOfVideo chan
          ⟨item.videoId, item.title, item.description, item.thumbnail,
            item.publishedAt, env1.durationOf item.videoId⟩] =
      processPendingList env1
        (processPendingRow env1
          ⟨[chan], [],
            [pendingRowOfVideo chan
              ⟨item.videoId, item.title, item.description, item.thumbnail,
                item.publishedAt, env1.durationOf item.videoId⟩]⟩
          (pendingRowOfVideo chan
            ⟨item.videoId, item.title, item.description, item.thumbnail,
              item.publishedAt, env1.durationOf item.videoId⟩)) [] from rfl]
    rw [processPendingRow_unusable hu1]
    unfold pendingFailStep
    rw [if_neg (by simp [pendingRowOfVideo])]
    unfold incrementPendingRetry
    simp only [pendingRowOfVideo, List.map_cons, List.map_nil]
    rfl
  refine ⟨hrun1, ?_, ?_⟩
  · rw [hrun1]
    unfold fetchAndSummarizeVideos
    dsimp only
    rw [hfilter]
    rw [if_neg (by simp)]
    have hchan2 : processChannels env2
        ⟨[chan], [],
          [{ pendingRowOfVideo chan
              ⟨item.videoId, item.title, item.description, item.thumbnail,
                item.publishedAt, env1.durationOf item.videoId⟩ with
            retry_count := 1 }]⟩ [chan] =
        ⟨[chan], [],
          [{ pendingRowOfVideo chan
              ⟨item.videoId, item.title, item.description, item.thumbnail,
                item.publishedAt, env1.durationOf item.videoId⟩ with
            retry_count := 1 }]⟩ := by
      rw [show ∀ s : DBState, processChannels env2 s [chan] =
        processChannels env2 (processChannel env2 s chan) [] from fun _ => rfl]
      have hch2 : processChannel env2
          ⟨[chan], [],
            [{ pendingRowOfVideo chan
                ⟨item.videoId, item.title, item.description, item.thumbnail,
                  item.publishedAt, env1.durationOf item.videoId⟩ with
              retry_count := 1 }]⟩ chan =
          ⟨[chan], [],
            [{ pendingRowOfVideo chan
                ⟨item.videoId, item.title, item.description, item.thumbnail,
                  item.publishedAt, env1.durationOf item.videoId⟩ with
              retry_count := 1 }]⟩ := by
        unfold processChannel
        rw [hA2]
        dsimp only
        rw [show ∀ (s : DBState) (v : ParsedVideo),
          processChannelCandidates env2 chan s [v] =
          (match processCandidate env2 chan s v with
           | (st', some _) => st'
           | (st', none) => processChannelCandidates env2 chan st' []) from
          fun _ _ => rfl]
        rw [@processCandidate_skip env2 chan
          ⟨[chan], [],
            [{ pendingRowOfVideo chan
                ⟨item.videoId, item.title, item.description, item.thumbnail,
                  item.publishedAt, env1.durationOf item.videoId⟩ with
              retry_count := 1 }]⟩
          ⟨item.videoId, item.title, item.description, item.thumbnail,
            item.publishedAt, env2.durationOf item.videoId⟩
          (Or.inr (by simp [pendingExists, pendingRowOfVideo]))]
        rfl
      rw [hch2]
      rfl
    rw [hchan2]
    unfold processPendingVideos
    rw [show ∀ (s : DBState) (r : PendingRow), processPendingList env2 s [r] =
      processPendingList env2 (processPendingRow env2 s r) [] from fun _ _ => rfl]
    rw [processPendingRow_unusable hu2]
    unfold pendingFailStep
    rw [if_pos (by simp [pendingRowOfVideo])]
    unfold deletePending
    simp only [List.filter_cons, List.filter_nil, ne_eq, decide_not, decide_eq_true_eq,
      not_true_eq_false, Bool.not_true, Bool.false_eq_true, if_false]
    rfl
  · intro env f' st hu hnot
    exact videoIds_fetchAndSummarizeVideos_not_new hu hnot

/-- Witness for C1 at a concrete channel, item and 40-character transcript. -/
theorem pending_retry_lifecycle_witness :
    fetchAndSummarizeVideos
        ⟨some "k", fun _ => SearchOutcome.payload
            (some [⟨"vid00000009", "T", "D", "th", "2024-01-01"⟩]),
          fun _ => none,
          fun _ => some "0123456789012345678901234567890123456789",
          fun t _ => t⟩ "main" ⟨[⟨"cidA", "chA", "Chan", "url", "main"⟩], [], []⟩ =
      ⟨[⟨"cidA", "chA", "Chan", "url", "main"⟩], [],
        [{ pendingRowOfVideo ⟨"cidA", "chA", "Chan", "url", "main"⟩
            ⟨"vid00000009", "T", "D", "th", "2024-01-01", none⟩ with
          retry_count := 1 }]⟩ ∧
    fetchAndSummarizeVideos
        ⟨some "k", fun _ => SearchOutcome.payload
            (some [⟨"vid00000009", "T", "D", "th", "2024-01-01"⟩]),
          fun _ => none,
          fun _ => some "0123456789012345678901234567890123456789",
          fun t _ => t⟩ "main"
        (fetchAndSummarizeVideos
          ⟨some "k", fun _ => SearchOutcome.payload
              (some [⟨"vid00000009", "T", "D", "th", "2024-01-01"⟩]),
            fun _ => none,
            fun _ => some "0123456789012345678901234567890123456789",
            fun t _ => t⟩ "main" ⟨[⟨"cidA", "chA", "Chan", "url", "main"⟩], [], []⟩) =
      ⟨[⟨"cidA", "chA", "Chan", "url", "main"⟩], [], []⟩ ∧
    "vid00000009" ∉ videoIds (fetchAndSummarizeVideos
        ⟨some "k", fun _ => SearchOutcome.payload
            (some [⟨"vid00000009", "T", "D", "th", "2024-01-01"⟩]),
          fun _ => none,
          fun _ => some "0123456789012345678901234567890123456789",
          fun t _ => t⟩ "x" ⟨[], [], []⟩) := by
  have h := pending_retry_lifecycle
    ⟨some "k", fun _ => SearchOutcome.payload
        (some [⟨"vid00000009", "T", "D", "th", "2024-01-01"⟩]),
      fun _ => none,
      fun _ => some "0123456789012345678901234567890123456789",
      fun t _ => t⟩
    ⟨some "k", fun _ => SearchOutcome.payload
        (some [⟨"vid00000009", "T", "D", "th", "2024-01-01"⟩]),
      fun _ => none,
      fun _ => some "0123456789012345678901234567890123456789",
      fun t _ => t⟩
    ⟨"cidA", "chA", "Chan", "url", "main"⟩
    ⟨"vid00000009", "T", "D", "th", "2024-01-01"⟩
    "main" "k" "k" rfl rfl rfl (by decide) rfl rfl (by decide)
  exact ⟨h.1, h.2.1, h.2.2
    ⟨some "k", fun _ => SearchOutcome.payload
        (some [⟨"vid00000009", "T", "D", "th", "2024-01-01"⟩]),
      fun _ => none,
      fun _ => some "0123456789012345678901234567890123456789",
      fun t _ => t⟩
    "x" ⟨[], [], []⟩ (by decide) (by decide)⟩

end YoutubeSummary
